import Mathlib

/-!
Taproot spatial math core

Shallow embedding of the bounded, wrapping scalar type `WrappedFloat`
(src/tap/algorithms/wrapped_float.{hpp,cpp}) and of the frame algebra
(src/tap/algorithms/transforms/{position,orientation,angular_velocity,transform}.hpp).

Modelling conventions

* `float` is modelled by the rationals `ℚ`. Arithmetic is the exact operation; the
  concrete inputs used below are small integers, for which the binary32 computation is
  exact as well. Where a property turns on rounding, the operation is rounded to
  binary32 (round to nearest, ties to even) with `binary32`: the two sums of
  `shiftBounds`, whose results decide whether the bounds stay apart.
* `int revolutions` is modelled by `Int`. Converting a `float` outside the range of `int`
  is undefined, so a statement about the revolution count of an arbitrary input carries
  the hypothesis that the counts computed are values of `int` (`fitsInt`); the concrete
  inputs used below stay far inside that range.
* A failed `assert` / `modm_assert` is fatal; operations that can hit one return
  `Option`, with `none` standing for the abort.
* The transforms are written over an arbitrary ordered field `α` of scalars, with the
  math library functions they call passed as a `LibM α`; statements about angles take the
  real numbers with the exact functions (`realLibM`), examples with plain numbers the
  rationals.
-/

namespace tap.algorithms

/-- Rounding of a number to the nearest integer, ties to the even one. -/
def roundTiesToEven (q : ℚ) : ℤ :=
  if q - ⌊q⌋ < 1 / 2 then ⌊q⌋
  else if 1 / 2 < q - ⌊q⌋ then ⌊q⌋ + 1
  else if ⌊q⌋ % 2 = 0 then ⌊q⌋ else ⌊q⌋ + 1

/-- The binary32 exponent of `x`: the `e` with `2 ^ e ≤ |x| < 2 ^ (e + 1)`, and `-126`
(the exponent shared by zero and the subnormal numbers) when `|x| < 2 ^ (-126)`. -/
def binary32Exponent (x : ℚ) : ℤ := if x = 0 then -126 else max (Int.log 2 |x|) (-126)

/-- The spacing of the binary32 numbers around `x`: 24 significant bits. -/
def binary32Ulp (x : ℚ) : ℚ := 2 ^ (binary32Exponent x - 23)

/-- The binary32 (`float`) number that an exact result `x` is rounded to: the nearest
multiple of the spacing, ties to the even one. Results of magnitude `2 ^ 128` and more,
which the hardware rounds to an infinity, are rounded like the others. -/
def binary32 (x : ℚ) : ℚ := roundTiesToEven (x / binary32Ulp x) * binary32Ulp x

/-- The C library `fmodf(x, y)`: `x - n * y` where `n` is the quotient `x / y`
truncated toward zero, so the result has the sign of `x` and magnitude below `|y|`. -/
def fmodf (x y : ℚ) : ℚ :=
  x - y * (if 0 ≤ x / y then (⌊x / y⌋ : ℤ) else (⌈x / y⌉ : ℤ))

/-- Modelled from the spec: `compareFloatClose` of `math_user_utils.hpp`, which is not
among the sources; bounds "match exactly (within an epsilon of 1e-8)". -/
def compareFloatClose {α : Type} [LinearOrderedField α] (val1 val2 epsilon : α) : Bool :=
  decide (|val1 - val2| ≤ epsilon)

/-- The class `WrappedFloat`: its four data members. -/
structure WrappedFloat where
  /-- The wrapped value. -/
  wrapped : ℚ
  /-- Number of total revolutions (default member initialiser `0`). -/
  revolutions : ℤ
  /-- The lower bound to wrap around. -/
  lowerBound : ℚ
  /-- The upper bound to wrap around. -/
  upperBound : ℚ
  deriving DecidableEq

/-- The constant `WrappedFloat::EPSILON = 1E-8`. -/
def WrappedFloat.EPSILON : ℚ := 1 / 100000000

/-- The getter `getWrappedValue`. -/
def WrappedFloat.getWrappedValue (self : WrappedFloat) : ℚ := self.wrapped

/-- The getter `getRevolutions`. -/
def WrappedFloat.getRevolutions (self : WrappedFloat) : ℤ := self.revolutions

/-- The getter `getUpperBound`. -/
def WrappedFloat.getUpperBound (self : WrappedFloat) : ℚ := self.upperBound

/-- The getter `getLowerBound`. -/
def WrappedFloat.getLowerBound (self : WrappedFloat) : ℚ := self.lowerBound

/-- The getter `getUnwrappedValue`: `wrapped + (upperBound - lowerBound) * revolutions`. -/
def WrappedFloat.getUnwrappedValue (self : WrappedFloat) : ℚ :=
  self.wrapped + (self.upperBound - self.lowerBound) * (self.revolutions : ℚ)

/-- The private helper `wrapValue`: folds `wrapped` back between the bounds and adds
`floor((oldValue - lowerBound) / (upperBound - lowerBound))` to `revolutions`. -/
def WrappedFloat.wrapValue (self : WrappedFloat) : WrappedFloat :=
  let oldValue := self.wrapped
  { self with
    wrapped :=
      if oldValue < self.lowerBound then
        self.upperBound + fmodf (oldValue - self.upperBound) (self.upperBound - self.lowerBound)
      else if oldValue ≥ self.upperBound then
        self.lowerBound + fmodf (oldValue - self.lowerBound) (self.upperBound - self.lowerBound)
      else oldValue
    revolutions :=
      self.revolutions + ⌊(oldValue - self.lowerBound) / (self.upperBound - self.lowerBound)⌋ }

/-- The constructor `WrappedFloat(value, lowerBound, upperBound)`:
`assert(upperBound > lowerBound)` and then `wrapValue()`. -/
def WrappedFloat.ctor (value lowerBound upperBound : ℚ) : Option WrappedFloat :=
  if upperBound > lowerBound then
    some (WrappedFloat.wrapValue
      { wrapped := value, revolutions := 0, lowerBound := lowerBound, upperBound := upperBound })
  else none

/-- The member `withSameBounds`. -/
def WrappedFloat.withSameBounds (self : WrappedFloat) (value : ℚ) : Option WrappedFloat :=
  WrappedFloat.ctor value self.lowerBound self.upperBound

/-- The static `assertBoundsEqual(a, b)`: both `modm_assert`s pass or the program aborts. -/
def WrappedFloat.assertBoundsEqual (a b : WrappedFloat) : Option Unit :=
  if compareFloatClose a.getLowerBound b.getLowerBound WrappedFloat.EPSILON = true then
    if compareFloatClose a.getUpperBound b.getUpperBound WrappedFloat.EPSILON = true then
      some ()
    else none
  else none

/-- The member `operator==`. -/
def WrappedFloat.eq (self other : WrappedFloat) : Option Bool := do
  WrappedFloat.assertBoundsEqual self other
  pure (decide (self.wrapped = other.wrapped))

/-- The member `operator+=(const WrappedFloat&)`, for an `other` that is not `*this`. -/
def WrappedFloat.addAssign (self other : WrappedFloat) : Option WrappedFloat := do
  WrappedFloat.assertBoundsEqual self other
  let t := WrappedFloat.wrapValue { self with wrapped := self.wrapped + other.wrapped }
  pure { t with revolutions := t.revolutions + other.revolutions }

/-- The member `operator-=(const WrappedFloat&)`, for an `other` that is not `*this`. -/
def WrappedFloat.subAssign (self other : WrappedFloat) : Option WrappedFloat := do
  WrappedFloat.assertBoundsEqual self other
  let t := WrappedFloat.wrapValue { self with wrapped := self.wrapped - other.wrapped }
  pure { t with revolutions := t.revolutions - other.revolutions }

/-- The member `operator+(const WrappedFloat&)`: copy, then `+=`. -/
def WrappedFloat.add (self other : WrappedFloat) : Option WrappedFloat := do
  WrappedFloat.assertBoundsEqual self other
  WrappedFloat.addAssign self other

/-- The member `operator-(const WrappedFloat&)`: copy, then `-=`. -/
def WrappedFloat.sub (self other : WrappedFloat) : Option WrappedFloat := do
  WrappedFloat.assertBoundsEqual self other
  WrappedFloat.subAssign self other

/-- The member `operator+=(float)`. -/
def WrappedFloat.addAssignFloat (self : WrappedFloat) (value : ℚ) : Option WrappedFloat := do
  let v ← WrappedFloat.withSameBounds self value
  WrappedFloat.addAssign self v

/-- The member `operator-=(float)`. -/
def WrappedFloat.subAssignFloat (self : WrappedFloat) (value : ℚ) : Option WrappedFloat := do
  let v ← WrappedFloat.withSameBounds self value
  WrappedFloat.subAssign self v

/-- The member `operator+(float)`. -/
def WrappedFloat.addFloat (self : WrappedFloat) (value : ℚ) : Option WrappedFloat := do
  let v ← WrappedFloat.withSameBounds self value
  WrappedFloat.add self v

/-- The member `operator-(float)`. -/
def WrappedFloat.subFloat (self : WrappedFloat) (value : ℚ) : Option WrappedFloat := do
  let v ← WrappedFloat.withSameBounds self value
  WrappedFloat.sub self v

/-- The member `minDifference(const WrappedFloat&)`; `abs` is the floating-point
absolute value. -/
def WrappedFloat.minDifference (self other : WrappedFloat) : Option ℚ := do
  WrappedFloat.assertBoundsEqual self other
  let interval := self.getUpperBound - self.getLowerBound
  let difference_between := other.getWrappedValue - self.getWrappedValue
  let difference_around :=
    difference_between + (if difference_between < 0 then interval else -interval)
  pure (if |difference_between| < |difference_around| then difference_between
        else difference_around)

/-- The member `minDifference(const float&)`. -/
def WrappedFloat.minDifferenceFloat (self : WrappedFloat) (unwrappedValue : ℚ) : Option ℚ := do
  let v ← WrappedFloat.withSameBounds self unwrappedValue
  WrappedFloat.minDifference self v

/-- The member `minInterpolate`. -/
def WrappedFloat.minInterpolate (self other : WrappedFloat) (alpha : ℚ) :
    Option WrappedFloat := do
  WrappedFloat.assertBoundsEqual self other
  let d ← WrappedFloat.minDifference self other
  WrappedFloat.addFloat self (d * alpha)

/-- The member `shiftBounds`: `upperBound += shiftMagnitude`, `lowerBound += shiftMagnitude`,
each sum rounded to `float`, and then `wrapValue()`. -/
def WrappedFloat.shiftBounds (self : WrappedFloat) (shiftMagnitude : ℚ) : WrappedFloat :=
  WrappedFloat.wrapValue
    { self with
      upperBound := binary32 (self.upperBound + shiftMagnitude)
      lowerBound := binary32 (self.lowerBound + shiftMagnitude) }

/-- The setter `setWrappedValue`. -/
def WrappedFloat.setWrappedValue (self : WrappedFloat) (newWrappedValue : ℚ) : WrappedFloat :=
  WrappedFloat.wrapValue { self with wrapped := newWrappedValue }

/-- The setter `setUnwrappedValue`. -/
def WrappedFloat.setUnwrappedValue (self : WrappedFloat) (newUnwrappedValue : ℚ) :
    WrappedFloat :=
  WrappedFloat.wrapValue { self with wrapped := newUnwrappedValue, revolutions := 0 }

/-- The member `getNormalized`. -/
def WrappedFloat.getNormalized (self : WrappedFloat) : WrappedFloat :=
  { self with revolutions := 0 }

/-- The member `withinRange`; it performs no bounds assertion. -/
def WrappedFloat.withinRange (self lowerBound upperBound : WrappedFloat) : Bool :=
  (decide (lowerBound.getWrappedValue < upperBound.getWrappedValue) &&
    (decide (self.getWrappedValue > lowerBound.getWrappedValue) &&
     decide (self.getWrappedValue < upperBound.getWrappedValue))) ||
  (decide (lowerBound.getWrappedValue > upperBound.getWrappedValue) &&
    (decide (self.getWrappedValue > lowerBound.getWrappedValue) ||
     decide (self.getWrappedValue < upperBound.getWrappedValue)))

/-- The static `limitValue(valueToLimit, min, max, status)` on `WrappedFloat` bounds.
The out-parameter `*status` is threaded: `status` is its value before the call and the
second component of the result its value after the call. -/
def WrappedFloat.limitValue (valueToLimit min max : WrappedFloat) (status : ℤ) :
    Option (ℚ × ℤ) := do
  WrappedFloat.assertBoundsEqual min max
  WrappedFloat.assertBoundsEqual valueToLimit min
  if min.getWrappedValue = max.getWrappedValue then
    pure (valueToLimit.getWrappedValue, status)
  else if !(WrappedFloat.withinRange valueToLimit min max) then
    let targetMinDifference ← WrappedFloat.minDifference valueToLimit min
    let targetMaxDifference ← WrappedFloat.minDifference valueToLimit max
    if |targetMinDifference| < |targetMaxDifference| then
      pure (min.getWrappedValue, 1)
    else
      pure (max.getWrappedValue, 2)
  else
    pure (valueToLimit.getWrappedValue, 0)

/-- The static `limitValue(valueToLimit, float min, float max, status)`. -/
def WrappedFloat.limitValueFloat (valueToLimit : WrappedFloat) (min max : ℚ) (status : ℤ) :
    Option (ℚ × ℤ) := do
  let minWrapped ← WrappedFloat.withSameBounds valueToLimit min
  let maxWrapped ← WrappedFloat.withSameBounds valueToLimit max
  WrappedFloat.limitValue valueToLimit minWrapped maxWrapped status

/-- The static `rangeOverlap(lowerA, upperA, lowerB, upperB)`. -/
def WrappedFloat.rangeOverlap (lowerA upperA lowerB upperB : WrappedFloat) : Option ℚ := do
  WrappedFloat.assertBoundsEqual lowerA upperA
  WrappedFloat.assertBoundsEqual upperA lowerB
  WrappedFloat.assertBoundsEqual lowerB upperB
  let origin := lowerA.getLowerBound
  let offset := lowerA.getWrappedValue - origin
  let upperAShifted := (← WrappedFloat.subFloat upperA offset).getWrappedValue
  let lowerBShifted := (← WrappedFloat.subFloat lowerB offset).getWrappedValue
  let upperBShifted := (← WrappedFloat.subFloat upperB offset).getWrappedValue
  if upperBShifted < lowerBShifted then
    let leftRange := Min.min upperBShifted upperAShifted
    let rightRange := Max.max origin (upperAShifted - lowerBShifted)
    pure (leftRange + rightRange)
  else
    pure (Max.max 0 (Min.min upperAShifted upperBShifted - Max.max origin lowerBShifted))

/-- The closed wrapped arc `[min, max]` in the words of the specification ("lies within
`[min, max]` on the wrap arc", endpoints included): the plain interval when
`min <= max`, and the arc through the wrap boundary when `min > max`. This definition
follows the specification; the code's own test is `WrappedFloat.withinRange`. -/
def specWithinArcClosed (value min max : ℚ) : Bool :=
  (decide (min ≤ max) && (decide (min ≤ value) && decide (value ≤ max))) ||
  (decide (min > max) && (decide (value ≥ min) || decide (value ≤ max)))

/-- Matching bounds in the words of the specification: "`lower` and `upper` match exactly
(within an epsilon of 1e-8)". This definition follows the specification; the code's own
test is `WrappedFloat.assertBoundsEqual`. -/
def specBoundsMatch (a b : WrappedFloat) : Bool :=
  decide (|a.lowerBound - b.lowerBound| ≤ 1 / 100000000) &&
  decide (|a.upperBound - b.upperBound| ≤ 1 / 100000000)

namespace transforms

/-- The C math library functions called by the transforms (`cosf`, `sinf`, `asinf`, `atan2`),
taken as a parameter of the code that calls them. -/
structure LibM (α : Type) where
  /-- The function `cosf`. -/
  cosf : α → α
  /-- The function `sinf`. -/
  sinf : α → α
  /-- The function `asinf`. -/
  asinf : α → α
  /-- The function `atan2(y, x)`. -/
  atan2 : α → α → α

/-- The exact real-number meaning of the math library: cosine, sine, arcsine with values in
`[-π/2, π/2]`, and `atan2(y, x)` as the argument in `(-π, π]` of the point `(x, y)`, with
`atan2(0, 0) = 0`. -/
noncomputable def realLibM : LibM ℝ where
  cosf := Real.cos
  sinf := Real.sin
  asinf := Real.arcsin
  atan2 := fun y x => Complex.arg ⟨x, y⟩

/-- Modelled from the spec: the dense matrix type `CMSISMat<ROWS, COLS>` of `cmsis_mat.hpp`,
which is not among the sources ("a small dense-matrix type"); its product, sum, negation
and transpose are the matrix operations. -/
abbrev CMSISMat (α : Type) (ROWS COLS : ℕ) := Matrix (Fin ROWS) (Fin COLS) α

/-- Modelled from the spec: the constructor of `CMSISMat` from a brace list of its `data`,
stored row by row (the skew matrix `{0, -wz, wy, wz, 0, -wx, -wy, wx, 0}` is
`[[0,-wz,wy],[wz,0,-wx],[-wy,wx,0]]`). -/
def CMSISMat.ofData {α : Type} [Zero α] {ROWS COLS : ℕ} (initialData : List α) :
    CMSISMat α ROWS COLS :=
  Matrix.of fun i j => initialData.getD (i.val * COLS + j.val) 0

/-- Modelled from the spec: the member array `data` of `CMSISMat`, read at a flat index;
entry `[i, j]` is `data[i * COLS + j]` (`R[2,0]` is `data[6]`). -/
def CMSISMat.data {α : Type} [Zero α] {ROWS COLS : ℕ} (m : CMSISMat α ROWS COLS) (k : ℕ) : α :=
  if h : k < COLS * ROWS then
    m ⟨k / COLS, Nat.div_lt_of_lt_mul h⟩
      ⟨k % COLS, Nat.mod_lt k (Nat.pos_of_ne_zero (by rintro rfl; simp at h))⟩
  else 0

/-- The class `Position`: its data member `coordinates_`. -/
structure Position (α : Type) where
  /-- The coordinates, a `3 x 1` matrix. -/
  coordinates_ : CMSISMat α 3 1

/-- The constructor `Position(x, y, z)`. -/
def Position.ctor {α : Type} [Zero α] (x y z : α) : Position α :=
  ⟨CMSISMat.ofData [x, y, z]⟩

/-- The getter `Position::x`. -/
def Position.x {α : Type} [Zero α] (self : Position α) : α := CMSISMat.data self.coordinates_ 0

/-- The getter `Position::y`. -/
def Position.y {α : Type} [Zero α] (self : Position α) : α := CMSISMat.data self.coordinates_ 1

/-- The getter `Position::z`. -/
def Position.z {α : Type} [Zero α] (self : Position α) : α := CMSISMat.data self.coordinates_ 2

/-- The getter `Position::coordinates`. -/
def Position.coordinates {α : Type} (self : Position α) : CMSISMat α 3 1 := self.coordinates_

/-- The class `Orientation`: its data member `matrix_`. -/
structure Orientation (α : Type) where
  /-- The rotation matrix. -/
  matrix_ : CMSISMat α 3 3

/-- The static `Orientation::fromEulerAngles(roll, pitch, yaw)`. -/
def Orientation.fromEulerAngles {α : Type} [Ring α] (m : LibM α) (roll pitch yaw : α) :
    CMSISMat α 3 3 :=
  CMSISMat.ofData
    [m.cosf yaw * m.cosf pitch,
     (m.cosf yaw * m.sinf pitch * m.sinf roll) - (m.sinf yaw * m.cosf roll),
     (m.cosf yaw * m.sinf pitch * m.cosf roll) + m.sinf yaw * m.sinf roll,
     m.sinf yaw * m.cosf pitch,
     m.sinf yaw * m.sinf pitch * m.sinf roll + m.cosf yaw * m.cosf roll,
     m.sinf yaw * m.sinf pitch * m.cosf roll - m.cosf yaw * m.sinf roll,
     -m.sinf pitch,
     m.cosf pitch * m.sinf roll,
     m.cosf pitch * m.cosf roll]

/-- Modelled from the spec: the free function `tap::algorithms::fromEulerAngles` of
`math_user_utils.hpp`, which is not among the sources and which the constructor
`Orientation(roll, pitch, yaw)` calls. The spec knows one construction from Euler angles
("the fixed rotation-composition formula for intrinsic roll, pitch, yaw"), the matrix of
`Orientation::fromEulerAngles`. -/
def fromEulerAngles {α : Type} [Ring α] (m : LibM α) (roll pitch yaw : α) : CMSISMat α 3 3 :=
  Orientation.fromEulerAngles m roll pitch yaw

/-- The constructor `Orientation(roll, pitch, yaw)`. -/
def Orientation.ctor {α : Type} [Ring α] (m : LibM α) (roll pitch yaw : α) : Orientation α :=
  ⟨fromEulerAngles m roll pitch yaw⟩

/-- The constructor `Orientation(const CMSISMat<3, 3>&)`. -/
def Orientation.ofMatrix {α : Type} (matrix : CMSISMat α 3 3) : Orientation α := ⟨matrix⟩

/-- The member `Orientation::compose`. -/
def Orientation.compose {α : Type} [Ring α] (self other : Orientation α) : Orientation α :=
  Orientation.ofMatrix (self.matrix_ * other.matrix_)

/-- The member `Orientation::roll`: `atan2(data[7], data[8])`. -/
def Orientation.roll {α : Type} [Zero α] (m : LibM α) (self : Orientation α) : α :=
  m.atan2 (CMSISMat.data self.matrix_ 7) (CMSISMat.data self.matrix_ 8)

/-- The member `Orientation::pitch`: `asinf(-data[6])`. -/
def Orientation.pitch {α : Type} [Ring α] (m : LibM α) (self : Orientation α) : α :=
  m.asinf (-(CMSISMat.data self.matrix_ 6))

/-- The member `Orientation::yaw`: `atan2(data[3], data[0])`. -/
def Orientation.yaw {α : Type} [Zero α] (m : LibM α) (self : Orientation α) : α :=
  m.atan2 (CMSISMat.data self.matrix_ 3) (CMSISMat.data self.matrix_ 0)

/-- The getter `Orientation::matrix`. -/
def Orientation.matrix {α : Type} (self : Orientation α) : CMSISMat α 3 3 := self.matrix_

/-- The class `AngularVelocity`: its data member `matrix_`. -/
structure AngularVelocity (α : Type) where
  /-- The skew matrix. -/
  matrix_ : CMSISMat α 3 3

/-- The static `AngularVelocity::skewMatFromAngVel(wx, wy, wz)`. -/
def AngularVelocity.skewMatFromAngVel {α : Type} [Ring α] (wx wy wz : α) : CMSISMat α 3 3 :=
  CMSISMat.ofData [0, -wz, wy, wz, 0, -wx, -wy, wx, 0]

/-- The constructor `AngularVelocity(rollVel, pitchVel, yawVel)`. -/
def AngularVelocity.ctor {α : Type} [Ring α] (rollVel pitchVel yawVel : α) :
    AngularVelocity α :=
  ⟨AngularVelocity.skewMatFromAngVel rollVel pitchVel yawVel⟩

/-- The getter `getRollVelocity`: `data[0 * 3 + 2]`. -/
def AngularVelocity.getRollVelocity {α : Type} [Zero α] (self : AngularVelocity α) : α :=
  CMSISMat.data self.matrix_ (0 * 3 + 2)

/-- The getter `getPitchVelocity`: `-data[1 * 3 + 2]`. -/
def AngularVelocity.getPitchVelocity {α : Type} [Ring α] (self : AngularVelocity α) : α :=
  -(CMSISMat.data self.matrix_ (1 * 3 + 2))

/-- The getter `getYawVelocity`: `-data[0 * 3 + 1]`. -/
def AngularVelocity.getYawVelocity {α : Type} [Ring α] (self : AngularVelocity α) : α :=
  -(CMSISMat.data self.matrix_ (0 * 3 + 1))

/-- The getter `AngularVelocity::matrix`. -/
def AngularVelocity.matrix {α : Type} (self : AngularVelocity α) : CMSISMat α 3 3 :=
  self.matrix_

/-- The rotation about the x axis by the angle with cosine `c` and sine `s`, as the
specification's "standard aerospace rotation matrix" is composed of; this definition
follows the specification, the code has no such function. -/
def specRx {α : Type} [Ring α] (c s : α) : Matrix (Fin 3) (Fin 3) α :=
  !![1, 0, 0; 0, c, -s; 0, s, c]

/-- The rotation about the y axis by the angle with cosine `c` and sine `s`; this
definition follows the specification, the code has no such function. -/
def specRy {α : Type} [Ring α] (c s : α) : Matrix (Fin 3) (Fin 3) α :=
  !![c, 0, s; 0, 1, 0; -s, 0, c]

/-- The rotation about the z axis by the angle with cosine `c` and sine `s`; this
definition follows the specification, the code has no such function. -/
def specRz {α : Type} [Ring α] (c s : α) : Matrix (Fin 3) (Fin 3) α :=
  !![c, -s, 0; s, c, 0; 0, 0, 1]

/-- The class `Transform`: its data members. -/
structure Transform (α : Type) where
  /-- Whether there are any non-zero derivatives (cached). -/
  dynamic : Bool
  /-- Translation vector. -/
  translation : CMSISMat α 3 1
  /-- Translational velocity vector. -/
  transVel : CMSISMat α 3 1
  /-- Translational acceleration vector. -/
  transAcc : CMSISMat α 3 1
  /-- Rotation matrix. -/
  rotation : CMSISMat α 3 3
  /-- Transpose of the rotation matrix (cached). -/
  tRotation : CMSISMat α 3 3
  /-- Angular velocity skew matrix. -/
  angVel : CMSISMat α 3 3

/-- The getter `Transform::getX`. -/
def Transform.getX {α : Type} [Zero α] (self : Transform α) : α :=
  CMSISMat.data self.translation 0

/-- The getter `Transform::getY`. -/
def Transform.getY {α : Type} [Zero α] (self : Transform α) : α :=
  CMSISMat.data self.translation 1

/-- The getter `Transform::getZ`. -/
def Transform.getZ {α : Type} [Zero α] (self : Transform α) : α :=
  CMSISMat.data self.translation 2

/-- The getter `Transform::getXVel`. -/
def Transform.getXVel {α : Type} [Zero α] (self : Transform α) : α :=
  CMSISMat.data self.transVel 0

/-- The getter `Transform::getYVel`. -/
def Transform.getYVel {α : Type} [Zero α] (self : Transform α) : α :=
  CMSISMat.data self.transVel 1

/-- The getter `Transform::getZVel`. -/
def Transform.getZVel {α : Type} [Zero α] (self : Transform α) : α :=
  CMSISMat.data self.transVel 2

/-- The getter `Transform::getXAcc`. -/
def Transform.getXAcc {α : Type} [Zero α] (self : Transform α) : α :=
  CMSISMat.data self.transAcc 0

/-- The getter `Transform::getYAcc`. -/
def Transform.getYAcc {α : Type} [Zero α] (self : Transform α) : α :=
  CMSISMat.data self.transAcc 1

/-- The getter `Transform::getZAcc`. -/
def Transform.getZAcc {α : Type} [Zero α] (self : Transform α) : α :=
  CMSISMat.data self.transAcc 2

/-- The getter `Transform::isDynamic`. -/
def Transform.isDynamic {α : Type} (self : Transform α) : Bool := self.dynamic

/-- Modelled from the spec: `Transform::getRollVelocity` of `transform.cpp`, which is not
among the sources; the angular velocity is "recoverable component-wise via fixed
matrix-entry lookups", taken to be the lookup of `AngularVelocity::getRollVelocity`. -/
def Transform.getRollVelocity {α : Type} [Zero α] (self : Transform α) : α :=
  AngularVelocity.getRollVelocity ⟨self.angVel⟩

/-- Modelled from the spec: `Transform::getPitchVelocity` of `transform.cpp`, which is not
among the sources; taken to be the lookup of `AngularVelocity::getPitchVelocity`. -/
def Transform.getPitchVelocity {α : Type} [Ring α] (self : Transform α) : α :=
  AngularVelocity.getPitchVelocity ⟨self.angVel⟩

/-- Modelled from the spec: `Transform::getYawVelocity` of `transform.cpp`, which is not
among the sources; taken to be the lookup of `AngularVelocity::getYawVelocity`. -/
def Transform.getYawVelocity {α : Type} [Ring α] (self : Transform α) : α :=
  AngularVelocity.getYawVelocity ⟨self.angVel⟩

/-- The private member `Transform::checkDynamic`: recomputes the `dynamic` flag from the
velocity, the acceleration and the angular velocity, each compared with `0` within `1e-5`. -/
def Transform.checkDynamic {α : Type} [LinearOrderedField α] (self : Transform α) :
    Transform α :=
  { self with
    dynamic :=
      ((false ||
        !(compareFloatClose self.getXVel 0 (1 / 100000) &&
          compareFloatClose self.getYVel 0 (1 / 100000) &&
          compareFloatClose self.getZVel 0 (1 / 100000))) ||
        !(compareFloatClose self.getXAcc 0 (1 / 100000) &&
          compareFloatClose self.getYAcc 0 (1 / 100000) &&
          compareFloatClose self.getZAcc 0 (1 / 100000))) ||
        !(compareFloatClose self.getRollVelocity 0 (1 / 100000) &&
          compareFloatClose self.getPitchVelocity 0 (1 / 100000) &&
          compareFloatClose self.getYawVelocity 0 (1 / 100000)) }

/-- Modelled from the spec: the constructor `Transform(translation, rotation, velocity,
acceleration, angularVelocity)` on matrices, of `transform.cpp`, which is not among the
sources: "all variants populate the same five internal fields and immediately recompute
the `dynamic` flag and the cached rotation transpose". -/
def Transform.ctorDynamic {α : Type} [LinearOrderedField α]
    (translation : CMSISMat α 3 1) (rotation : CMSISMat α 3 3)
    (velocity acceleration : CMSISMat α 3 1) (angularVelocity : CMSISMat α 3 3) :
    Transform α :=
  Transform.checkDynamic
    { dynamic := true
      translation := translation
      transVel := velocity
      transAcc := acceleration
      rotation := rotation
      tRotation := rotation.transpose
      angVel := angularVelocity }

/-- Modelled from the spec: the constructor `Transform(translation, rotation)` on
matrices, of `transform.cpp`, which is not among the sources: "from (Position,
Orientation) only (static)", the derivative fields being zero. -/
def Transform.ctor {α : Type} [LinearOrderedField α]
    (translation : CMSISMat α 3 1) (rotation : CMSISMat α 3 3) : Transform α :=
  Transform.ctorDynamic translation rotation 0 0 0

/-- Modelled from the spec: the constructor `Transform(const Position&, const
Orientation&)` of `transform.cpp`, which is not among the sources. -/
def Transform.ofPositionOrientation {α : Type} [LinearOrderedField α]
    (translation : Position α) (rotation : Orientation α) : Transform α :=
  Transform.ctor translation.coordinates rotation.matrix

/-- Modelled from the spec: the constructor `Transform(x, y, z, rx, ry, rz)` of
`transform.cpp`, which is not among the sources: "from raw Euler-angle/translation
scalars", the rotation being that of roll `rx`, pitch `ry`, yaw `rz`. -/
def Transform.ctorEuler {α : Type} [LinearOrderedField α] (m : LibM α)
    (x y z rx ry rz : α) : Transform α :=
  Transform.ctor (CMSISMat.ofData [x, y, z]) (fromEulerAngles m rx ry rz)

/-- The static `Transform::identity`: `Transform(0., 0., 0., 0., 0., 0.)`. -/
def Transform.identity {α : Type} [LinearOrderedField α] (m : LibM α) : Transform α :=
  Transform.ctorEuler m 0 0 0 0 0 0

/-- Modelled from the spec: `Transform::apply(const Position&)` of `transform.cpp`, which
is not among the sources: "first undoing the translation (subtracting `translation`), then
undoing the rotation (multiplying by the transpose/inverse of `rotation`)"; the transpose
is the stored `tRotation`. -/
def Transform.apply {α : Type} [Ring α] (self : Transform α) (position : Position α) :
    Position α :=
  ⟨self.tRotation * (position.coordinates - self.translation)⟩

/-- Modelled from the spec: `Transform::composeStatic` of `transform.cpp`, which is not
among the sources: "performs only the position/rotation composition and zeroes all
derivative fields". -/
def Transform.composeStatic {α : Type} [LinearOrderedField α] (self second : Transform α) :
    Transform α :=
  Transform.ctor (self.translation + self.rotation * second.translation)
    (self.rotation * second.rotation)

/-- Modelled from the spec: `Transform::compose` of `transform.cpp`, which is not among the
sources: "new translation = `this.translation + this.rotation * second.translation`; new
rotation = `this.rotation * second.rotation`"; the velocity "adds the rotated child
velocity to the parent's velocity plus the tangential term from parent angular velocity
cross child translation; similarly for acceleration with a Coriolis/centripetal term;
angular velocities add after rotation". -/
def Transform.compose {α : Type} [LinearOrderedField α] (self second : Transform α) :
    Transform α :=
  Transform.ctorDynamic
    (self.translation + self.rotation * second.translation)
    (self.rotation * second.rotation)
    (self.transVel + self.rotation * second.transVel +
      self.angVel * (self.rotation * second.translation))
    (self.transAcc + self.rotation * second.transAcc +
      (2 : α) • (self.angVel * (self.rotation * second.transVel)) +
      self.angVel * (self.angVel * (self.rotation * second.translation)))
    (self.angVel + self.rotation * second.angVel * self.tRotation)

/-- Modelled from the spec: `Transform::getInverse` of `transform.cpp`, which is not among
the sources: "inverse translation = `-rotation^T * translation`, inverse rotation =
`rotation^T`", the transpose being the stored `tRotation`. For the derivative fields of
the inverse the spec gives no formula ("only an instantaneous approximation"); they are
the parameter `inverseDerivatives` (velocity, acceleration, angular velocity). -/
def Transform.getInverse {α : Type} [LinearOrderedField α]
    (inverseDerivatives : Transform α → CMSISMat α 3 1 × CMSISMat α 3 1 × CMSISMat α 3 3)
    (self : Transform α) : Transform α :=
  Transform.ctorDynamic (-(self.tRotation * self.translation)) self.tRotation
    (inverseDerivatives self).1 (inverseDerivatives self).2.1 (inverseDerivatives self).2.2

/-- Modelled from the spec: `Transform::projectForward` of `transform.cpp`, which is not
among the sources: it "advances translation by the standard constant-acceleration
kinematic formula per axis" and "leaves the derivative fields unchanged". How the rotation
is advanced ("integrating the angular-velocity skew matrix over `dt`", to first order) is
not fixed further by the spec; it is the parameter `integrateRotation`, applied to the
rotation, the angular velocity and `dt`. -/
def Transform.projectForward {α : Type} [LinearOrderedField α]
    (integrateRotation : CMSISMat α 3 3 → CMSISMat α 3 3 → α → CMSISMat α 3 3)
    (self : Transform α) (dt : α) : Transform α :=
  Transform.ctorDynamic
    (self.translation + dt • self.transVel + ((1 / 2 : α) * dt ^ 2) • self.transAcc)
    (integrateRotation self.rotation self.angVel dt)
    self.transVel self.transAcc self.angVel

/-- Modelled from the spec: the class `Vector` of `vector.hpp`, which is not among the
sources: "a free 3-vector (x,y,z)" on "the same 3×1 numeric storage" as `Position`. -/
structure Vector (α : Type) where
  /-- The coordinates, a `3 x 1` matrix. -/
  coordinates_ : CMSISMat α 3 1

/-- Modelled from the spec: the constructor `Vector(x, y, z)`. -/
def Vector.ctor {α : Type} [Zero α] (x y z : α) : Vector α :=
  ⟨CMSISMat.ofData [x, y, z]⟩

/-- Modelled from the spec: the getter `Vector::coordinates`. -/
def Vector.coordinates {α : Type} (self : Vector α) : CMSISMat α 3 1 := self.coordinates_

/-- Modelled from the spec: the getter `Vector::x`. -/
def Vector.x {α : Type} [Zero α] (self : Vector α) : α := CMSISMat.data self.coordinates_ 0

/-- Modelled from the spec: the getter `Vector::y`. -/
def Vector.y {α : Type} [Zero α] (self : Vector α) : α := CMSISMat.data self.coordinates_ 1

/-- Modelled from the spec: the getter `Vector::z`. -/
def Vector.z {α : Type} [Zero α] (self : Vector α) : α := CMSISMat.data self.coordinates_ 2

/-- Modelled from the spec: the class `DynamicPosition` of `dynamic_position.hpp`, which
is not among the sources: "`{ position, velocity: Vector, acceleration: Vector }`", each
member assignable to a `3 x 1` matrix of `Transform`. -/
structure DynamicPosition (α : Type) where
  /-- The position. -/
  position : CMSISMat α 3 1
  /-- The velocity. -/
  velocity : CMSISMat α 3 1
  /-- The acceleration. -/
  acceleration : CMSISMat α 3 1

/-- Modelled from the spec: the class `DynamicOrientation` of `dynamic_orientation.hpp`,
which is not among the sources: "`{ orientation, angularVelocity }`", each member
assignable to a `3 x 3` matrix of `Transform`. -/
structure DynamicOrientation (α : Type) where
  /-- The orientation. -/
  orientation : CMSISMat α 3 3
  /-- The angular velocity. -/
  angularVelocity : CMSISMat α 3 3

/-- The members `updateTranslation(const Position&)` and `updateTranslation(Position&&)`. -/
def Transform.updateTranslation {α : Type} (self : Transform α) (newTranslation : Position α) :
    Transform α :=
  { self with translation := newTranslation.coordinates }

/-- The member `updateTranslation(float x, float y, float z)`. -/
def Transform.updateTranslationXYZ {α : Type} [Zero α] (self : Transform α) (x y z : α) :
    Transform α :=
  { self with translation := CMSISMat.ofData [x, y, z] }

/-- The members `updateTranslation(const DynamicPosition&)` and
`updateTranslation(DynamicPosition&&)`. -/
def Transform.updateTranslationDynamic {α : Type} (self : Transform α)
    (newTranslation : DynamicPosition α) : Transform α :=
  { self with
    translation := newTranslation.position
    transVel := newTranslation.velocity
    transAcc := newTranslation.acceleration }

/-- The members `updateRotation(const Orientation&)` and `updateRotation(Orientation&&)`. -/
def Transform.updateRotation {α : Type} (self : Transform α) (newRotation : Orientation α) :
    Transform α :=
  { self with
    rotation := newRotation.matrix
    tRotation := newRotation.matrix.transpose }

/-- The member `updateRotation(float roll, float pitch, float yaw)`. -/
def Transform.updateRotationEuler {α : Type} [Ring α] (m : LibM α) (self : Transform α)
    (roll pitch yaw : α) : Transform α :=
  { self with
    rotation := (Orientation.ctor m roll pitch yaw).matrix
    tRotation := (Orientation.ctor m roll pitch yaw).matrix.transpose }

/-- The members `updateRotation(const DynamicOrientation&)` and
`updateRotation(DynamicOrientation&&)`. -/
def Transform.updateRotationDynamic {α : Type} (self : Transform α)
    (newRotation : DynamicOrientation α) : Transform α :=
  { self with
    rotation := newRotation.orientation
    tRotation := newRotation.orientation.transpose
    angVel := newRotation.angularVelocity }

/-- The members `updateVelocity(const Vector&)` and `updateVelocity(Vector&&)`. -/
def Transform.updateVelocity {α : Type} [LinearOrderedField α] (self : Transform α)
    (newVelocity : Vector α) : Transform α :=
  Transform.checkDynamic { self with transVel := newVelocity.coordinates }

/-- The member `updateVelocity(float vx, float vy, float vz)`. -/
def Transform.updateVelocityXYZ {α : Type} [LinearOrderedField α] (self : Transform α)
    (vx vy vz : α) : Transform α :=
  Transform.checkDynamic { self with transVel := CMSISMat.ofData [vx, vy, vz] }

/-- The members `updateAcceleration(const Vector&)` and `updateAcceleration(Vector&&)`:
`this->transVel = newAcceleration.coordinates(); checkDynamic();`. -/
def Transform.updateAcceleration {α : Type} [LinearOrderedField α] (self : Transform α)
    (newAcceleration : Vector α) : Transform α :=
  Transform.checkDynamic { self with transVel := newAcceleration.coordinates }

/-- The member `updateAcceleration(float ax, float ay, float az)`. -/
def Transform.updateAccelerationXYZ {α : Type} [LinearOrderedField α] (self : Transform α)
    (ax ay az : α) : Transform α :=
  Transform.checkDynamic { self with transAcc := CMSISMat.ofData [ax, ay, az] }

/-- The member `updateAngularVelocity(const Vector&)`. -/
def Transform.updateAngularVelocity {α : Type} [LinearOrderedField α] (self : Transform α)
    (newAngularVelocity : Vector α) : Transform α :=
  Transform.checkDynamic
    { self with
      angVel := AngularVelocity.skewMatFromAngVel newAngularVelocity.x newAngularVelocity.y
        newAngularVelocity.z }

/-- The member `updateAngularVelocity(Position&&)`. -/
def Transform.updateAngularVelocityPosition {α : Type} [LinearOrderedField α]
    (self : Transform α) (newAngularVelocity : Position α) : Transform α :=
  Transform.checkDynamic
    { self with
      angVel := AngularVelocity.skewMatFromAngVel newAngularVelocity.x newAngularVelocity.y
        newAngularVelocity.z }

/-- The member `updateAngularVelocity(float vr, float vp, float vy)`. -/
def Transform.updateAngularVelocityXYZ {α : Type} [LinearOrderedField α] (self : Transform α)
    (vr vp vy : α) : Transform α :=
  Transform.checkDynamic { self with angVel := AngularVelocity.skewMatFromAngVel vr vp vy }

/-- The meaning of the `dynamic` flag in the words of the specification: "true iff any of
transVel/transAcc/angVel is non-zero within tolerance 1e-5", the angular velocity being
read through its three rates. This definition follows the specification; the code's own
computation is `Transform.checkDynamic`. -/
def specDynamic {α : Type} [LinearOrderedField α] (T : Transform α) : Bool :=
  decide (1 / 100000 < |T.getXVel|) || decide (1 / 100000 < |T.getYVel|) ||
  decide (1 / 100000 < |T.getZVel|) ||
  decide (1 / 100000 < |T.getXAcc|) || decide (1 / 100000 < |T.getYAcc|) ||
  decide (1 / 100000 < |T.getZAcc|) ||
  decide (1 / 100000 < |T.getRollVelocity|) || decide (1 / 100000 < |T.getPitchVelocity|) ||
  decide (1 / 100000 < |T.getYawVelocity|)

/-- Modelled from the spec: `Position::operator*(float)` of `position.cpp`, which is not
among the sources: "scalar multiplication", each coordinate times the scalar. -/
def Position.mul {α : Type} [Ring α] (self : Position α) (scalar : α) : Position α :=
  ⟨scalar • self.coordinates_⟩

/-- Modelled from the spec: `Position::operator+(const Position&)` of `position.cpp`,
which is not among the sources: "pure value arithmetic", the sum coordinate by
coordinate. -/
def Position.add {α : Type} [Ring α] (self other : Position α) : Position α :=
  ⟨self.coordinates_ + other.coordinates_⟩

/-- The static `Position::interpolate(a, b, t)`: `a * (1 - t) + b * t`. -/
def Position.interpolate {α : Type} [Ring α] (a b : Position α) (t : α) : Position α :=
  Position.add (Position.mul a (1 - t)) (Position.mul b t)

end transforms

namespace ballistics

/-- Modelled from the spec: `modm::Vector3f` of the modm library, which is not among the
sources: three scalar components `x`, `y`, `z`. -/
structure Vector3f (α : Type) where
  /-- The x component. -/
  x : α
  /-- The y component. -/
  y : α
  /-- The z component. -/
  z : α

/-- The static `AbstractKinematicState::quadraticKinematicProjection(dt, s, v, a)`:
`s + v * dt + 0.5f * a * powf(dt, 2.0f)`, the power being the square. -/
def quadraticKinematicProjection {α : Type} [Field α] (dt s v a : α) : α :=
  s + v * dt + (1 / 2) * a * dt ^ 2

/-- The struct `SecondOrderKinematicState`: position, velocity, acceleration. -/
structure SecondOrderKinematicState (α : Type) where
  /-- The position, in m. -/
  position : Vector3f α
  /-- The velocity, in m/s. -/
  velocity : Vector3f α
  /-- The acceleration, in m/s^2. -/
  acceleration : Vector3f α

/-- The member `SecondOrderKinematicState::projectForward(dt)`. -/
def SecondOrderKinematicState.projectForward {α : Type} [Field α]
    (self : SecondOrderKinematicState α) (dt : α) : Vector3f α :=
  ⟨quadraticKinematicProjection dt self.position.x self.velocity.x self.acceleration.x,
   quadraticKinematicProjection dt self.position.y self.velocity.y self.acceleration.y,
   quadraticKinematicProjection dt self.position.z self.velocity.z self.acceleration.z⟩

end ballistics

end tap.algorithms

namespace tap.control

/-- The class template `SequentialCommand<COMMANDS>`: the template parameter and the two
members that `initialize` and `execute` change. The sub-commands of the array `commands`
are outside objects; what they answer is an input of `execute`. -/
structure SequentialCommand where
  /-- The template parameter, the length of the array `commands`. -/
  COMMANDS : ℕ
  /-- The index of the sub-command being run. -/
  currentCommand : ℕ
  /-- Whether the current sub-command has been initialized. -/
  commandInitialized : Bool
  deriving DecidableEq

/-- The member `initialize`. -/
def SequentialCommand.initialize (self : SequentialCommand) : SequentialCommand :=
  { self with currentCommand := 0, commandInitialized := false }

/-- The member `isFinished`. -/
def SequentialCommand.isFinished (self : SequentialCommand) : Bool :=
  decide (self.currentCommand = self.COMMANDS)

/-- The member `execute`. `isReady i` and `isFinished i` are what the object found at
`commands[i]` answers to `isReady()` and `isFinished()` during this call. The result is the
state after the call and the indices at which `commands` was read, in order. -/
def SequentialCommand.execute (isReady isFinished : ℕ → Bool) (self : SequentialCommand) :
    SequentialCommand × List ℕ :=
  let first : SequentialCommand × List ℕ :=
    if !self.commandInitialized then
      if isReady self.currentCommand then
        ({ self with commandInitialized := true }, [self.currentCommand, self.currentCommand])
      else (self, [self.currentCommand])
    else (self, [])
  let second : SequentialCommand × List ℕ :=
    if first.1.commandInitialized then
      if isFinished first.1.currentCommand then
        ({ first.1 with commandInitialized := false
                        currentCommand := first.1.currentCommand + 1 },
          [first.1.currentCommand, first.1.currentCommand, first.1.currentCommand])
      else (first.1, [first.1.currentCommand, first.1.currentCommand])
    else (first.1, [])
  (second.1, first.2 ++ second.2)

end tap.control

namespace tap.communication.serial

/-- The enum `RefSerialData::RobotId : uint16_t`, a value of its underlying type. -/
abbrev RobotId := ℕ

/-- The enumerator `RobotId::INVALID`. -/
def RobotId.INVALID : RobotId := 0

/-- The enumerator `RobotId::RED_HERO`. -/
def RobotId.RED_HERO : RobotId := 1

/-- The enumerator `RobotId::BLUE_HERO`. -/
def RobotId.BLUE_HERO : RobotId := 101

/-- The enumerators of `RobotId` other than `INVALID`: `RED_HERO = 1` to
`RED_RADAR_STATION = 9` and `BLUE_HERO = 101` to `BLUE_RADAR_STATION = 109`. -/
def RobotId.isEnumerator (id : RobotId) : Bool :=
  (decide (1 ≤ id) && decide (id ≤ 9)) || (decide (101 ≤ id) && decide (id ≤ 109))

/-- The static `RefSerialData::isBlueTeam`. -/
def isBlueTeam (id : RobotId) : Bool := decide (id ≥ RobotId.BLUE_HERO)

/-- The `operator+` on `RobotId`: the sum of the `uint16_t` values, as a `uint16_t`. -/
def RobotId.add (id1 id2 : RobotId) : RobotId := (id1 % 65536 + id2 % 65536) % 65536

/-- The `operator-` on `RobotId`: the difference of the `uint16_t` values, as a
`uint16_t`. -/
def RobotId.sub (id1 id2 : RobotId) : RobotId :=
  (id1 % 65536 + 65536 - id2 % 65536) % 65536

/-- The member `RefSerial::getRobotIdBasedOnCurrentRobotTeam(id)`; `robotId` is the member
`robotData.robotId`. -/
def getRobotIdBasedOnCurrentRobotTeam (robotId : RobotId) (id : RobotId) : RobotId :=
  if id = RobotId.INVALID ∨ robotId = RobotId.INVALID then id
  else if !isBlueTeam robotId && isBlueTeam id then
    RobotId.add (RobotId.sub id RobotId.BLUE_HERO) RobotId.RED_HERO
  else if isBlueTeam robotId && !isBlueTeam id then
    RobotId.add (RobotId.sub id RobotId.RED_HERO) RobotId.BLUE_HERO
  else id

/-- Modelled from the spec: `DJISerial::ReceivedSerialMessage` of `dji_serial.hpp`, which
is not among the sources: the header's `dataLength` and the byte buffer `data`, read at
an index. -/
structure ReceivedSerialMessage where
  /-- The field `header.dataLength`. -/
  dataLength : ℕ
  /-- The byte `data[i]`. -/
  data : ℕ → ℕ

/-- The struct `Rx::RadarMarkProgress`. -/
structure RadarMarkProgress where
  /-- Mark progress of the hero. -/
  hero : ℕ
  /-- Mark progress of the engineer. -/
  engineer : ℕ
  /-- Mark progress of standard 3. -/
  standard3 : ℕ
  /-- Mark progress of standard 4. -/
  standard4 : ℕ
  /-- Mark progress of standard 5. -/
  standard5 : ℕ
  /-- Mark progress of the sentry. -/
  sentry : ℕ
  deriving DecidableEq

/-- The member `RefSerial::decodeToRadarProgress(message)`; `radarProgress` is the member
`gameData.radarProgress` before the call, the result the returned flag and that member
after the call. -/
def decodeToRadarProgress (radarProgress : RadarMarkProgress)
    (message : ReceivedSerialMessage) : Bool × RadarMarkProgress :=
  if message.dataLength ≠ 6 then (false, radarProgress)
  else
    (true,
      { radarProgress with
        hero := message.data 1
        engineer := message.data 2
        standard3 := message.data 3
        standard4 := message.data 4
        sentry := message.data 6 })

end tap.communication.serial

namespace details

/-- The function `details::rotateBox(uint8_t *box)` as the 8 bytes it leaves in `box`:
`temp[i] |= ((box[j] >> i) & 1) << (8 - j - 1)` for `j = 0 .. 7`, each `temp[i]` a
`uint8_t`. -/
def rotateBox (box : Fin 8 → ℕ) : Fin 8 → ℕ := fun i =>
  (List.range 8).foldl
    (fun temp j => (temp ||| (((box (Fin.ofNat j) >>> i.val) &&& 1) <<< (8 - j - 1))) % 256) 0

end details

namespace tap.algorithms

/-! ## Auxiliary facts -/

/-! ### Rounding to binary32 -/

lemma WrappedFloat.assertBoundsEqual_of_eq (a b : WrappedFloat)
    (hl : a.lowerBound = b.lowerBound) (hu : a.upperBound = b.upperBound) :
    WrappedFloat.assertBoundsEqual a b = some () := by
  simp [WrappedFloat.assertBoundsEqual, compareFloatClose, WrappedFloat.getLowerBound,
    WrappedFloat.getUpperBound, WrappedFloat.EPSILON, hl, hu]

/-- The value `minDifference` computes once the bounds assertion has passed. -/
lemma WrappedFloat.minDifference_of_eq (a b : WrappedFloat)
    (hl : a.lowerBound = b.lowerBound) (hu : a.upperBound = b.upperBound) :
    WrappedFloat.minDifference a b =
      some (if |b.wrapped - a.wrapped| <
              |b.wrapped - a.wrapped +
                (if b.wrapped - a.wrapped < 0 then a.upperBound - a.lowerBound
                 else -(a.upperBound - a.lowerBound))|
            then b.wrapped - a.wrapped
            else b.wrapped - a.wrapped +
                (if b.wrapped - a.wrapped < 0 then a.upperBound - a.lowerBound
                 else -(a.upperBound - a.lowerBound))) := by
  simp [WrappedFloat.minDifference, WrappedFloat.assertBoundsEqual_of_eq a b hl hu,
    WrappedFloat.getLowerBound, WrappedFloat.getUpperBound, WrappedFloat.getWrappedValue]

/-- A point within half a period of zero is no farther from zero than any of its
translates by whole periods. -/
lemma abs_le_abs_add_period (d L : ℚ) (hd : |d| ≤ L / 2) (j : ℤ) : |d| ≤ |d + j * L| := by
  have hL : 0 ≤ L := by linarith [abs_nonneg d]
  have h1 := abs_le.mp hd
  rcases lt_trichotomy j 0 with hj | hj | hj
  · have hj1 : (j : ℚ) ≤ -1 := by exact_mod_cast Int.le_sub_one_of_lt hj
    have : (j : ℚ) * L ≤ -1 * L := mul_le_mul_of_nonneg_right hj1 hL
    rw [abs_le]
    constructor
    · linarith [neg_abs_le (d + j * L), le_abs_self (d + j * L), neg_le_abs (d + j * L)]
    · linarith [neg_le_abs (d + j * L)]
  · simp [hj]
  · have hj1 : (1 : ℚ) ≤ j := by exact_mod_cast hj
    have : 1 * L ≤ (j : ℚ) * L := mul_le_mul_of_nonneg_right hj1 hL
    rw [abs_le]
    constructor
    · linarith [le_abs_self (d + j * L)]
    · linarith [le_abs_self (d + j * L)]

/-- The selection made by `minDifference` on the direct difference `x` and interval
length `L` is odd in `x`. -/
lemma minDifference_core_neg (x L : ℚ) :
    (if |(-x)| < |(-x) + (if -x < 0 then L else -L)| then -x
      else -x + (if -x < 0 then L else -L)) =
    -(if |x| < |x + (if x < 0 then L else -L)| then x
      else x + (if x < 0 then L else -L)) := by
  rcases lt_trichotomy x 0 with h | h | h
  · have h1 : ¬ (-x < 0) := by linarith
    have e2 : |(-x) + -L| = |x + L| := by rw [← abs_neg]; congr 1; ring
    simp only [h, h1, if_true, if_false, abs_neg, e2]
    split_ifs <;> ring
  · subst h
    by_cases hL : L = 0
    · subst hL; simp
    · have : 0 < |L| := abs_pos.mpr hL
      simp [this]
  · have h1 : ¬ (x < 0) := by linarith
    have h2 : -x < 0 := by linarith
    have e2 : |(-x) + L| = |x + -L| := by rw [← abs_neg]; congr 1; ring
    simp only [h1, h2, if_true, if_false, abs_neg, e2]
    split_ifs <;> ring

/-- The clamping branch of `limitValue`: what it returns when `min` and `max` differ and
`withinRange` is false. -/
lemma WrappedFloat.limitValue_of_not_withinRange (valueToLimit min max : WrappedFloat)
    (status : ℤ)
    (h1 : min.lowerBound = max.lowerBound) (h2 : min.upperBound = max.upperBound)
    (h3 : valueToLimit.lowerBound = min.lowerBound)
    (h4 : valueToLimit.upperBound = min.upperBound)
    (hne : min.wrapped ≠ max.wrapped)
    (hout : WrappedFloat.withinRange valueToLimit min max = false) :
    ∃ dmin dmax, WrappedFloat.minDifference valueToLimit min = some dmin ∧
      WrappedFloat.minDifference valueToLimit max = some dmax ∧
      WrappedFloat.limitValue valueToLimit min max status =
        some (if |dmin| < |dmax| then (min.wrapped, 1) else (max.wrapped, 2)) := by
  obtain ⟨dmin, hmin⟩ : ∃ d, WrappedFloat.minDifference valueToLimit min = some d :=
    ⟨_, WrappedFloat.minDifference_of_eq valueToLimit min h3 h4⟩
  obtain ⟨dmax, hmax⟩ : ∃ d, WrappedFloat.minDifference valueToLimit max = some d :=
    ⟨_, WrappedFloat.minDifference_of_eq valueToLimit max (h3.trans h1) (h4.trans h2)⟩
  refine ⟨dmin, dmax, hmin, hmax, ?_⟩
  simp only [WrappedFloat.limitValue, WrappedFloat.assertBoundsEqual_of_eq min max h1 h2,
    WrappedFloat.assertBoundsEqual_of_eq valueToLimit min h3 h4, hmin, hmax, hout,
    WrappedFloat.getWrappedValue, hne, Option.bind_eq_bind, Option.some_bind,
    Option.pure_def, if_false, Bool.not_false, if_true]
  split_ifs <;> rfl

/-- From a value at or above `lowerBound`, `wrapValue` keeps the unwrapped value: the
second branch and the revolution count agree. -/
lemma WrappedFloat.wrapValue_getUnwrappedValue_of_ge (w : WrappedFloat)
    (h : w.lowerBound < w.upperBound) (hge : w.lowerBound ≤ w.wrapped) :
    (WrappedFloat.wrapValue w).getUnwrappedValue =
      w.wrapped + (w.upperBound - w.lowerBound) * (w.revolutions : ℚ) := by
  have hL : 0 < w.upperBound - w.lowerBound := by linarith
  have h1 : ¬ (w.wrapped < w.lowerBound) := not_lt.mpr hge
  by_cases h2 : w.wrapped ≥ w.upperBound
  · have hq : 0 ≤ (w.wrapped - w.lowerBound) / (w.upperBound - w.lowerBound) :=
      div_nonneg (by linarith) hL.le
    simp only [WrappedFloat.getUnwrappedValue, WrappedFloat.wrapValue, h1, h2, if_true,
      if_false, fmodf, hq]
    push_cast
    ring
  · have hq : ⌊(w.wrapped - w.lowerBound) / (w.upperBound - w.lowerBound)⌋ = 0 := by
      rw [Int.floor_eq_zero_iff]
      constructor
      · exact div_nonneg (by linarith) hL.le
      · rw [div_lt_one hL]; linarith [not_le.mp h2]
    simp only [WrappedFloat.getUnwrappedValue, WrappedFloat.wrapValue, h1, h2, if_false, hq]
    push_cast
    ring

/-! ## Claims on wrapping (C1, C2) -/

/-- C1. The claimed invariant `lowerBound <= getWrappedValue() < upperBound` is broken by
the code: whenever the value handed to `wrapValue` lies a whole number of interval lengths
below `lowerBound`, the first branch yields `upperBound + fmodf(.., ..) = upperBound`.
Evaluated here for the constructor (`WrappedFloat(-10, 0, 10)` has wrapped value `10`),
for `setWrappedValue`, for `shiftBounds`, and for `+`, `+=`, `-`, `-=` on operands whose
wrapped values are in range. -/
theorem wrapValue_yields_upperBound :
    (WrappedFloat.ctor (-10) 0 10).map WrappedFloat.getWrappedValue = some 10 ∧
    (WrappedFloat.setWrappedValue ⟨3, 0, 0, 10⟩ (-10)).getWrappedValue = 10 ∧
    (WrappedFloat.shiftBounds ⟨0, 0, 0, 10⟩ 10).getWrappedValue = 20 ∧
    (WrappedFloat.shiftBounds ⟨0, 0, 0, 10⟩ 10).getUpperBound = 20 ∧
    (WrappedFloat.add ⟨-15, 0, -20, -10⟩ ⟨-15, 0, -20, -10⟩).map
      WrappedFloat.getWrappedValue = some (-10) ∧
    (WrappedFloat.addAssign ⟨-15, 0, -20, -10⟩ ⟨-15, 0, -20, -10⟩).map
      WrappedFloat.getWrappedValue = some (-10) ∧
    (WrappedFloat.sub ⟨10, 0, 10, 20⟩ ⟨10, 0, 10, 20⟩).map
      WrappedFloat.getWrappedValue = some 20 ∧
    (WrappedFloat.subAssign ⟨10, 0, 10, 20⟩ ⟨10, 0, 10, 20⟩).map
      WrappedFloat.getWrappedValue = some 20 := by
  decide!

/-- C2. `WrappedFloat(-10, 0, 10)` is left with wrapped value `10` and `-1` revolutions,
so `getUnwrappedValue()` is `0` and not the `-10` it was constructed from; likewise
`WrappedFloat(-30, 0, 10)`, three interval lengths below, unwraps to `-20`. -/
theorem ctor_getUnwrappedValue_off_by_interval :
    WrappedFloat.ctor (-10) 0 10 = some ⟨10, -1, 0, 10⟩ ∧
    (WrappedFloat.ctor (-10) 0 10).map WrappedFloat.getUnwrappedValue = some 0 ∧
    (WrappedFloat.ctor (-30) 0 10).map WrappedFloat.getUnwrappedValue = some (-20) := by
  decide!

/-! ## Claims on `minDifference` (C3, C4) -/

/-- C3. For same-bounds `a`, `b` with wrapped values in `[lower, upper)`,
`a.minDifference(b)` returns a value `d` with `|d| <= (upper - lower)/2` that is one of
`b - a`, `b - a + (upper - lower)`, `b - a - (upper - lower)` on wrapped values, and no
translate of `b - a` by whole intervals is shorter; and
`WrappedFloat(9, 0, 10).minDifference(WrappedFloat(1, 0, 10)) = 2`. -/
theorem minDifference_shortest :
    (∀ a b : WrappedFloat,
      a.lowerBound = b.lowerBound → a.upperBound = b.upperBound →
      a.lowerBound ≤ a.wrapped → a.wrapped < a.upperBound →
      b.lowerBound ≤ b.wrapped → b.wrapped < b.upperBound →
      ∃ d, WrappedFloat.minDifference a b = some d ∧
        |d| ≤ (a.upperBound - a.lowerBound) / 2 ∧
        (d = b.wrapped - a.wrapped ∨
          d = b.wrapped - a.wrapped + (a.upperBound - a.lowerBound) ∨
          d = b.wrapped - a.wrapped - (a.upperBound - a.lowerBound)) ∧
        ∀ k : ℤ, |d| ≤ |b.wrapped - a.wrapped + k * (a.upperBound - a.lowerBound)|) ∧
    (do let a ← WrappedFloat.ctor 9 0 10
        let b ← WrappedFloat.ctor 1 0 10
        WrappedFloat.minDifference a b) = some 2 := by
  refine ⟨?_, by decide!⟩
  intro a b hl hu ha1 ha2 hb1 hb2
  rw [WrappedFloat.minDifference_of_eq a b hl hu]
  rw [hl] at ha1
  rw [← hu] at hb2
  rw [← hl] at hb1 ha1
  set x := b.wrapped - a.wrapped with hx
  set L := a.upperBound - a.lowerBound with hL
  have hxl : -L < x := by rw [hx, hL]; linarith
  have hxu : x < L := by rw [hx, hL]; linarith
  -- the returned value is `x + m * L` with `m ∈ {0, 1, -1}` and magnitude at most `L / 2`
  have key : ∀ d : ℚ, |d| ≤ L / 2 → (d = x ∨ d = x + L ∨ d = x - L) →
      ∀ k : ℤ, |d| ≤ |x + k * L| := by
    intro d hd hm k
    rcases hm with h | h | h
    · have := abs_le_abs_add_period d L hd k
      rwa [h] at this ⊢
    · have := abs_le_abs_add_period d L hd (k - 1)
      have e : d + ((k - 1 : ℤ) : ℚ) * L = x + k * L := by rw [h]; push_cast; ring
      rwa [e] at this
    · have := abs_le_abs_add_period d L hd (k + 1)
      have e : d + ((k + 1 : ℤ) : ℚ) * L = x + k * L := by rw [h]; push_cast; ring
      rwa [e] at this
  by_cases hneg : x < 0
  · simp only [hneg, if_true]
    by_cases hc : |x| < |x + L|
    · simp only [hc, if_true]
      have hb : |x| ≤ L / 2 := by
        rw [abs_of_neg hneg, abs_of_pos (by linarith)] at hc
        rw [abs_of_neg hneg]; linarith
      exact ⟨x, rfl, hb, Or.inl rfl, key x hb (Or.inl rfl)⟩
    · simp only [hc, if_false]
      have hb : |x + L| ≤ L / 2 := by
        rw [abs_of_neg hneg, abs_of_pos (by linarith)] at hc
        rw [abs_of_pos (by linarith)]; linarith
      exact ⟨x + L, rfl, hb, Or.inr (Or.inl rfl), key _ hb (Or.inr (Or.inl rfl))⟩
  · simp only [hneg, if_false]
    have hx0 : 0 ≤ x := not_lt.mp hneg
    have e : x + -L = x - L := by ring
    rw [e]
    by_cases hc : |x| < |x - L|
    · simp only [hc, if_true]
      have hb : |x| ≤ L / 2 := by
        rw [abs_of_nonneg hx0, abs_of_neg (by linarith)] at hc
        rw [abs_of_nonneg hx0]; linarith
      exact ⟨x, rfl, hb, Or.inl rfl, key x hb (Or.inl rfl)⟩
    · simp only [hc, if_false]
      have hb : |x - L| ≤ L / 2 := by
        rw [abs_of_nonneg hx0, abs_of_neg (by linarith)] at hc
        rw [abs_of_neg (by linarith)]; linarith
      exact ⟨x - L, rfl, hb, Or.inr (Or.inr rfl), key _ hb (Or.inr (Or.inr rfl))⟩

/-- Instance of C3: `5` in bounds `[0, 10)` against `0`, exactly half an interval away. -/
theorem minDifference_shortest_witness :
    ∃ d, WrappedFloat.minDifference ⟨5, 0, 0, 10⟩ ⟨0, 0, 0, 10⟩ = some d ∧
      |d| ≤ ((10 : ℚ) - 0) / 2 ∧
      (d = 0 - 5 ∨ d = 0 - 5 + ((10 : ℚ) - 0) ∨ d = 0 - 5 - ((10 : ℚ) - 0)) ∧
      ∀ k : ℤ, |d| ≤ |(0 : ℚ) - 5 + k * ((10 : ℚ) - 0)| :=
  minDifference_shortest.1 ⟨5, 0, 0, 10⟩ ⟨0, 0, 0, 10⟩ rfl rfl
    (by norm_num) (by norm_num) (by norm_num) (by norm_num)

/-- C4. For same-bounds `a` and `b`, `a.minDifference(b) = -(b.minDifference(a))`: both
calls return, and the results are opposite (also for equal wrapped values and for values
exactly half an interval apart). -/
theorem minDifference_antisymm (a b : WrappedFloat)
    (hl : a.lowerBound = b.lowerBound) (hu : a.upperBound = b.upperBound) :
    ∃ d, WrappedFloat.minDifference a b = some d ∧
      WrappedFloat.minDifference b a = some (-d) := by
  rw [WrappedFloat.minDifference_of_eq a b hl hu,
    WrappedFloat.minDifference_of_eq b a hl.symm hu.symm, ← hl, ← hu]
  refine ⟨_, rfl, ?_⟩
  congr 1
  have e : a.wrapped - b.wrapped = -(b.wrapped - a.wrapped) := by ring
  rw [e]
  exact minDifference_core_neg _ _

/-- Instance of C4 at two values exactly half an interval apart: `0` and `5` in `[0, 10)`. -/
theorem minDifference_antisymm_witness :
    ∃ d, WrappedFloat.minDifference ⟨0, 0, 0, 10⟩ ⟨5, 0, 0, 10⟩ = some d ∧
      WrappedFloat.minDifference ⟨5, 0, 0, 10⟩ ⟨0, 0, 0, 10⟩ = some (-d) :=
  minDifference_antisymm ⟨0, 0, 0, 10⟩ ⟨5, 0, 0, 10⟩ rfl rfl

/-! ## Claims on `limitValue` and `withinRange` (C5, C6, C7) -/

/-- C5. For same-bounds `valueToLimit`, `min`, `max` with different wrapped values of
`min` and `max`, when `valueToLimit` is not within the arc from `min` to `max`
(`withinRange` is false), `limitValue` returns `min`'s wrapped value with status `1` if
`|valueToLimit.minDifference(min)| < |valueToLimit.minDifference(max)|` and `max`'s
wrapped value with status `2` otherwise. -/
theorem limitValue_clamps_to_nearer (valueToLimit min max : WrappedFloat) (status : ℤ)
    (h1 : min.lowerBound = max.lowerBound) (h2 : min.upperBound = max.upperBound)
    (h3 : valueToLimit.lowerBound = min.lowerBound)
    (h4 : valueToLimit.upperBound = min.upperBound)
    (hne : min.wrapped ≠ max.wrapped)
    (hout : WrappedFloat.withinRange valueToLimit min max = false) :
    ∃ dmin dmax, WrappedFloat.minDifference valueToLimit min = some dmin ∧
      WrappedFloat.minDifference valueToLimit max = some dmax ∧
      WrappedFloat.limitValue valueToLimit min max status =
        some (if |dmin| < |dmax| then (min.wrapped, 1) else (max.wrapped, 2)) :=
  WrappedFloat.limitValue_of_not_withinRange valueToLimit min max status h1 h2 h3 h4 hne hout

/-- Instance of C5 on bounds `[-10, 10)`: `9` limited to the arc from `1` to `3` is clamped
to the bound whose `minDifference` is smaller in magnitude (the differences are `-8` to
`1` and `-6` to `3`, so to `3` with status `2`). -/
theorem limitValue_clamps_to_nearer_witness :
    ∃ dmin dmax, WrappedFloat.minDifference ⟨9, 0, -10, 10⟩ ⟨1, 0, -10, 10⟩ = some dmin ∧
      WrappedFloat.minDifference ⟨9, 0, -10, 10⟩ ⟨3, 0, -10, 10⟩ = some dmax ∧
      WrappedFloat.limitValue ⟨9, 0, -10, 10⟩ ⟨1, 0, -10, 10⟩ ⟨3, 0, -10, 10⟩ 0 =
        some (if |dmin| < |dmax| then ((1 : ℚ), (1 : ℤ)) else ((3 : ℚ), (2 : ℤ))) :=
  limitValue_clamps_to_nearer ⟨9, 0, -10, 10⟩ ⟨1, 0, -10, 10⟩ ⟨3, 0, -10, 10⟩ 0
    rfl rfl rfl rfl (by norm_num) (by decide!)

/-- C6, as stated, fails at an endpoint of the arc: in bounds `[0, 10)` the value `3`
lies in the closed arc `[3, 7]`, yet `limitValue` reports status `1` (limited to min),
not `0`. -/
theorem limitValue_endpoint_status_nonzero :
    specWithinArcClosed 3 3 7 = true ∧
    (do let v ← WrappedFloat.ctor 3 0 10
        let mn ← WrappedFloat.ctor 3 0 10
        let mx ← WrappedFloat.ctor 7 0 10
        WrappedFloat.limitValue v mn mx 0) = some (3, 1) := by
  decide!

/-- C6, amended. For same-bounds `valueToLimit`, `min`, `max`: whenever `valueToLimit`
lies strictly inside the wrapped arc from `min` to `max` (`withinRange` holds),
`limitValue` returns `valueToLimit`'s wrapped value unchanged with status `0`; and when
`min` and `max` have different in-range wrapped values and `valueToLimit` sits exactly
on an endpoint, the returned value is still `valueToLimit`'s wrapped value, with status
`1` at `min` and status `2` at `max`. -/
theorem limitValue_within_arc (valueToLimit min max : WrappedFloat) (status : ℤ)
    (h1 : min.lowerBound = max.lowerBound) (h2 : min.upperBound = max.upperBound)
    (h3 : valueToLimit.lowerBound = min.lowerBound)
    (h4 : valueToLimit.upperBound = min.upperBound) :
    (WrappedFloat.withinRange valueToLimit min max = true →
      WrappedFloat.limitValue valueToLimit min max status =
        some (valueToLimit.wrapped, 0)) ∧
    (min.wrapped ≠ max.wrapped →
      min.lowerBound ≤ min.wrapped → min.wrapped < min.upperBound →
      max.lowerBound ≤ max.wrapped → max.wrapped < max.upperBound →
      (valueToLimit.wrapped = min.wrapped →
        WrappedFloat.limitValue valueToLimit min max status =
          some (valueToLimit.wrapped, 1)) ∧
      (valueToLimit.wrapped = max.wrapped →
        WrappedFloat.limitValue valueToLimit min max status =
          some (valueToLimit.wrapped, 2))) := by
  have hmin := WrappedFloat.minDifference_of_eq valueToLimit min h3 h4
  have hmax := WrappedFloat.minDifference_of_eq valueToLimit max (h3.trans h1) (h4.trans h2)
  constructor
  · intro hin
    have hne : min.wrapped ≠ max.wrapped := by
      intro he
      simp [WrappedFloat.withinRange, WrappedFloat.getWrappedValue, he] at hin
    simp [WrappedFloat.limitValue, WrappedFloat.assertBoundsEqual_of_eq min max h1 h2,
      WrappedFloat.assertBoundsEqual_of_eq valueToLimit min h3 h4, hin,
      WrappedFloat.getWrappedValue, hne]
  · intro hne hmn1 hmn2 hmx1 hmx2
    rw [← h1] at hmx1
    rw [← h2] at hmx2
    have hL : 0 < min.upperBound - min.lowerBound := by linarith
    constructor
    · intro hv
      have hout : WrappedFloat.withinRange valueToLimit min max = false := by
        simp [WrappedFloat.withinRange, WrappedFloat.getWrappedValue, hv]
        intro h; exact le_of_lt h
      obtain ⟨dmin, dmax, e1, e2, e3⟩ :=
        WrappedFloat.limitValue_of_not_withinRange valueToLimit min max status h1 h2 h3 h4 hne hout
      rw [e3]
      rw [hmin] at e1
      rw [hmax] at e2
      have hd1 : dmin = 0 := by
        rw [← Option.some_injective _ e1, hv, h3, h4]
        simp [abs_pos.mpr (ne_of_gt hL)]
      have hd2 : dmax ≠ 0 := by
        rw [← Option.some_injective _ e2, hv, h3, h4]
        have hx : max.wrapped - min.wrapped ≠ 0 := sub_ne_zero.mpr (Ne.symm hne)
        split_ifs <;> first | exact hx | (intro h0; linarith)
      rw [hd1, abs_zero, if_pos (abs_pos.mpr hd2), hv]
    · intro hv
      have hout : WrappedFloat.withinRange valueToLimit min max = false := by
        simp [WrappedFloat.withinRange, WrappedFloat.getWrappedValue, hv]
        intro h; exact le_of_lt h
      obtain ⟨dmin, dmax, e1, e2, e3⟩ :=
        WrappedFloat.limitValue_of_not_withinRange valueToLimit min max status h1 h2 h3 h4 hne hout
      rw [e3]
      rw [hmax] at e2
      have hd2 : dmax = 0 := by
        rw [← Option.some_injective _ e2, hv, h3, h4]
        simp [abs_pos.mpr (ne_of_gt hL)]
      rw [hd2, abs_zero, if_neg (not_lt.mpr (abs_nonneg dmin)), hv]

/-- Instance of C6 (amended) on bounds `[0, 10)` with the arc from `3` to `7`: `5` lies
strictly inside and is returned unchanged with status `0`; `3` and `7`, on the endpoints,
are returned unchanged with status `1` and `2`. -/
theorem limitValue_within_arc_witness :
    WrappedFloat.limitValue ⟨5, 0, 0, 10⟩ ⟨3, 0, 0, 10⟩ ⟨7, 0, 0, 10⟩ 9 = some (5, 0) ∧
    WrappedFloat.limitValue ⟨3, 0, 0, 10⟩ ⟨3, 0, 0, 10⟩ ⟨7, 0, 0, 10⟩ 9 = some (3, 1) ∧
    WrappedFloat.limitValue ⟨7, 0, 0, 10⟩ ⟨3, 0, 0, 10⟩ ⟨7, 0, 0, 10⟩ 9 = some (7, 2) :=
  ⟨(limitValue_within_arc ⟨5, 0, 0, 10⟩ ⟨3, 0, 0, 10⟩ ⟨7, 0, 0, 10⟩ 9
      rfl rfl rfl rfl).1 (by decide!),
   ((limitValue_within_arc ⟨3, 0, 0, 10⟩ ⟨3, 0, 0, 10⟩ ⟨7, 0, 0, 10⟩ 9
      rfl rfl rfl rfl).2 (by norm_num) (by norm_num) (by norm_num) (by norm_num)
      (by norm_num)).1 rfl,
   ((limitValue_within_arc ⟨7, 0, 0, 10⟩ ⟨3, 0, 0, 10⟩ ⟨7, 0, 0, 10⟩ 9
      rfl rfl rfl rfl).2 (by norm_num) (by norm_num) (by norm_num) (by norm_num)
      (by norm_num)).2 rfl⟩

/-- C7. `x.withinRange(lo, hi)` is true iff `x`'s wrapped value lies strictly inside the
arc from `lo` up to `hi`: `lo < x < hi` when `lo < hi`, and `x > lo` or `x < hi` when
`lo > hi`; it is false when `lo` and `hi` have equal wrapped values. For bounds `0..10`:
`(9; 3, 7)` false, `(5; 3, 7)` true, `(9; 7, 3)` true, `(5; 7, 3)` false. -/
theorem withinRange_iff_strictly_inside :
    (∀ x lo hi : WrappedFloat,
      (WrappedFloat.withinRange x lo hi = true ↔
        (lo.wrapped < hi.wrapped ∧ lo.wrapped < x.wrapped ∧ x.wrapped < hi.wrapped) ∨
        (lo.wrapped > hi.wrapped ∧ (x.wrapped > lo.wrapped ∨ x.wrapped < hi.wrapped))) ∧
      (lo.wrapped = hi.wrapped → WrappedFloat.withinRange x lo hi = false)) ∧
    (do let x ← WrappedFloat.ctor 9 0 10
        let lo ← WrappedFloat.ctor 3 0 10
        let hi ← WrappedFloat.ctor 7 0 10
        pure (WrappedFloat.withinRange x lo hi)) = some false ∧
    (do let x ← WrappedFloat.ctor 5 0 10
        let lo ← WrappedFloat.ctor 3 0 10
        let hi ← WrappedFloat.ctor 7 0 10
        pure (WrappedFloat.withinRange x lo hi)) = some true ∧
    (do let x ← WrappedFloat.ctor 9 0 10
        let lo ← WrappedFloat.ctor 7 0 10
        let hi ← WrappedFloat.ctor 3 0 10
        pure (WrappedFloat.withinRange x lo hi)) = some true ∧
    (do let x ← WrappedFloat.ctor 5 0 10
        let lo ← WrappedFloat.ctor 7 0 10
        let hi ← WrappedFloat.ctor 3 0 10
        pure (WrappedFloat.withinRange x lo hi)) = some false := by
  refine ⟨?_, by decide!, by decide!, by decide!, by decide!⟩
  intro x lo hi
  constructor
  · simp [WrappedFloat.withinRange, WrappedFloat.getWrappedValue]
  · intro h
    simp [WrappedFloat.withinRange, WrappedFloat.getWrappedValue, h]

/-! ## Claims on `rangeOverlap` (C8, C9, C10) -/

/-- C8. With wrap bounds `[-10, 10)`, arc A from `-10` up to `0` and arc B from `5` up
through the wrap boundary to `-5` have the part from `-10` to `-5` in common, of length
`5`; `rangeOverlap` returns `-10`, a negative number. -/
theorem rangeOverlap_negative_on_nonzero_lower :
    (do let lowerA ← WrappedFloat.ctor (-10) (-10) 10
        let upperA ← WrappedFloat.ctor 0 (-10) 10
        let lowerB ← WrappedFloat.ctor 5 (-10) 10
        let upperB ← WrappedFloat.ctor (-5) (-10) 10
        WrappedFloat.rangeOverlap lowerA upperA lowerB upperB) = some (-10) := by
  decide!

/-- C9. Two inputs on which `rangeOverlap` is not `0` although the arcs do not overlap.
With wrap bounds `[-10, 10)`, arc A from `-10` to `-8` and arc B from `5` up to the wrap
boundary (`upperB` has wrapped value `-10`, which is also `lowerA`): the result is `-20`.
With wrap bounds `[10, 20)`, the one-point arc A at `15` and arc B from `16` to `18`:
the result is `2`. -/
theorem rangeOverlap_nonzero_on_disjoint :
    (do let lowerA ← WrappedFloat.ctor (-10) (-10) 10
        let upperA ← WrappedFloat.ctor (-8) (-10) 10
        let lowerB ← WrappedFloat.ctor 5 (-10) 10
        let upperB ← WrappedFloat.ctor 10 (-10) 10
        WrappedFloat.rangeOverlap lowerA upperA lowerB upperB) = some (-20) ∧
    (do let lowerA ← WrappedFloat.ctor 15 10 20
        let upperA ← WrappedFloat.ctor 15 10 20
        let lowerB ← WrappedFloat.ctor 16 10 20
        let upperB ← WrappedFloat.ctor 18 10 20
        WrappedFloat.rangeOverlap lowerA upperA lowerB upperB) = some 2 := by
  decide!

/-- C10. With wrap bounds `[10, 20)`, `l = 15` and `u = 17`: `rangeOverlap(l, u, l, u)`
returns `22`, not `u - l = 2`; with `l = 10` on the lower bound and `u = 15` it returns
`25`, not `5`. -/
theorem rangeOverlap_self_on_positive_lower :
    (do let l ← WrappedFloat.ctor 15 10 20
        let u ← WrappedFloat.ctor 17 10 20
        WrappedFloat.rangeOverlap l u l u) = some 22 ∧
    (do let l ← WrappedFloat.ctor 10 10 20
        let u ← WrappedFloat.ctor 15 10 20
        WrappedFloat.rangeOverlap l u l u) = some 25 := by
  decide!


/-! ## Auxiliary facts on assertions and scalar operands -/

/-- The bounds assertion passes exactly when the bounds match within `EPSILON`. -/
lemma WrappedFloat.assertBoundsEqual_eq (a b : WrappedFloat) :
    WrappedFloat.assertBoundsEqual a b = if specBoundsMatch a b = true then some () else none := by
  unfold WrappedFloat.assertBoundsEqual compareFloatClose specBoundsMatch
    WrappedFloat.getLowerBound WrappedFloat.getUpperBound WrappedFloat.EPSILON
  by_cases h1 : |a.lowerBound - b.lowerBound| ≤ 1 / 100000000 <;>
    by_cases h2 : |a.upperBound - b.upperBound| ≤ 1 / 100000000 <;>
    simp only [h1, h2, decide_True, decide_False, Bool.and_true, Bool.and_false,
      Bool.false_and, if_true, if_false, Bool.false_eq_true]

/-- A value built by `wrapValue` keeps the bounds it was given. -/
lemma WrappedFloat.wrapValue_bounds (w : WrappedFloat) :
    (WrappedFloat.wrapValue w).lowerBound = w.lowerBound ∧
    (WrappedFloat.wrapValue w).upperBound = w.upperBound :=
  ⟨rfl, rfl⟩

/-- The scalar `+`: what it returns on a receiver with `lowerBound < upperBound`. -/
lemma WrappedFloat.addFloat_eq (a : WrappedFloat) (s : ℚ) (h : a.lowerBound < a.upperBound) :
    WrappedFloat.addFloat a s =
      some { WrappedFloat.wrapValue
              { a with wrapped := a.wrapped +
                  (WrappedFloat.wrapValue ⟨s, 0, a.lowerBound, a.upperBound⟩).wrapped } with
             revolutions :=
              (WrappedFloat.wrapValue
                { a with wrapped := a.wrapped +
                    (WrappedFloat.wrapValue ⟨s, 0, a.lowerBound, a.upperBound⟩).wrapped }).revolutions
              + (WrappedFloat.wrapValue ⟨s, 0, a.lowerBound, a.upperBound⟩).revolutions } := by
  have hb : WrappedFloat.assertBoundsEqual a
      (WrappedFloat.wrapValue ⟨s, 0, a.lowerBound, a.upperBound⟩) = some () :=
    WrappedFloat.assertBoundsEqual_of_eq _ _ rfl rfl
  simp [WrappedFloat.addFloat, WrappedFloat.withSameBounds, WrappedFloat.ctor, h,
    WrappedFloat.add, WrappedFloat.addAssign, hb]

/-- The scalar `-`: what it returns on a receiver with `lowerBound < upperBound`. -/
lemma WrappedFloat.subFloat_eq (a : WrappedFloat) (s : ℚ) (h : a.lowerBound < a.upperBound) :
    WrappedFloat.subFloat a s =
      some { WrappedFloat.wrapValue
              { a with wrapped := a.wrapped -
                  (WrappedFloat.wrapValue ⟨s, 0, a.lowerBound, a.upperBound⟩).wrapped } with
             revolutions :=
              (WrappedFloat.wrapValue
                { a with wrapped := a.wrapped -
                    (WrappedFloat.wrapValue ⟨s, 0, a.lowerBound, a.upperBound⟩).wrapped }).revolutions
              - (WrappedFloat.wrapValue ⟨s, 0, a.lowerBound, a.upperBound⟩).revolutions } := by
  have hb : WrappedFloat.assertBoundsEqual a
      (WrappedFloat.wrapValue ⟨s, 0, a.lowerBound, a.upperBound⟩) = some () :=
    WrappedFloat.assertBoundsEqual_of_eq _ _ rfl rfl
  simp [WrappedFloat.subFloat, WrappedFloat.withSameBounds, WrappedFloat.ctor, h,
    WrappedFloat.sub, WrappedFloat.subAssign, hb]

/-- Once the bounds match, `minInterpolate` is the scalar `+` of `minDifference * alpha`,
whatever `alpha` is. -/
lemma WrappedFloat.minInterpolate_eq (a b : WrappedFloat) (alpha : ℚ)
    (h : specBoundsMatch a b = true) :
    WrappedFloat.minInterpolate a b alpha =
      (WrappedFloat.minDifference a b).bind fun d => WrappedFloat.addFloat a (d * alpha) := by
  simp [WrappedFloat.minInterpolate, WrappedFloat.assertBoundsEqual_eq, h]


/-! ## Claims on assertions (C24, C25, C26) -/

/-- C24, as stated, fails for an operation on three operands: with wrap bounds
`[0, 10)`, `[1e-8, 10)` and `[2e-8, 10)` for `valueToLimit`, `min` and `max`, the lower
bounds of `valueToLimit` and `max` differ by more than `EPSILON`, yet `limitValue` returns
(here `min` and `max` have the same wrapped value `5`); likewise `rangeOverlap` returns on
four operands whose bounds each match the next but not end to end. -/
theorem limitValue_returns_on_unmatched_pair :
    (do let v ← WrappedFloat.ctor 3 0 10
        let mn ← WrappedFloat.ctor 5 (1 / 100000000) 10
        let mx ← WrappedFloat.ctor 5 (2 / 100000000) 10
        pure (specBoundsMatch v mx, WrappedFloat.limitValue v mn mx 0)) =
      some (false, some (3, 0)) ∧
    (do let lowerA ← WrappedFloat.ctor 1 0 10
        let upperA ← WrappedFloat.ctor 3 (1 / 100000000) 10
        let lowerB ← WrappedFloat.ctor 2 (2 / 100000000) 10
        let upperB ← WrappedFloat.ctor 5 (3 / 100000000) 10
        pure (specBoundsMatch lowerA upperB,
          WrappedFloat.rangeOverlap lowerA upperA lowerB upperB)) =
      some (false, some 1) := by
  decide!

/-- C24, amended. Each of `operator==`, `+=`, `-=`, `+`, `-`, `minDifference` and (on a
receiver with `lowerBound < upperBound`) `minInterpolate` fails with a fatal assertion if
and only if the lower bounds or the upper bounds of its two operands differ by more than
`EPSILON`. `limitValue` and `rangeOverlap` fail if and only if one of the pairs they
compare differs so: `(min, max)`, `(valueToLimit, min)` and, once the clamping branch is
reached, `(valueToLimit, max)` for `limitValue`; `(lowerA, upperA)`, `(upperA, lowerB)`,
`(lowerB, upperB)` for `rangeOverlap` (on operands with `lowerBound < upperBound`). -/
theorem assertion_failure_iff :
    (∀ a b : WrappedFloat,
      (WrappedFloat.eq a b = none ↔ specBoundsMatch a b = false) ∧
      (WrappedFloat.addAssign a b = none ↔ specBoundsMatch a b = false) ∧
      (WrappedFloat.subAssign a b = none ↔ specBoundsMatch a b = false) ∧
      (WrappedFloat.add a b = none ↔ specBoundsMatch a b = false) ∧
      (WrappedFloat.sub a b = none ↔ specBoundsMatch a b = false) ∧
      (WrappedFloat.minDifference a b = none ↔ specBoundsMatch a b = false)) ∧
    (∀ (a b : WrappedFloat) (alpha : ℚ), a.lowerBound < a.upperBound →
      (WrappedFloat.minInterpolate a b alpha = none ↔ specBoundsMatch a b = false)) ∧
    (∀ (valueToLimit min max : WrappedFloat) (status : ℤ),
      (WrappedFloat.limitValue valueToLimit min max status = none ↔
        specBoundsMatch min max = false ∨ specBoundsMatch valueToLimit min = false ∨
        (min.wrapped ≠ max.wrapped ∧ WrappedFloat.withinRange valueToLimit min max = false ∧
          specBoundsMatch valueToLimit max = false))) ∧
    (∀ lowerA upperA lowerB upperB : WrappedFloat,
      upperA.lowerBound < upperA.upperBound → lowerB.lowerBound < lowerB.upperBound →
      upperB.lowerBound < upperB.upperBound →
      (WrappedFloat.rangeOverlap lowerA upperA lowerB upperB = none ↔
        specBoundsMatch lowerA upperA = false ∨ specBoundsMatch upperA lowerB = false ∨
        specBoundsMatch lowerB upperB = false)) := by
  refine ⟨?_, ?_, ?_, ?_⟩
  · intro a b
    cases h : specBoundsMatch a b <;>
      simp [WrappedFloat.eq, WrappedFloat.addAssign, WrappedFloat.subAssign, WrappedFloat.add,
        WrappedFloat.sub, WrappedFloat.minDifference, WrappedFloat.assertBoundsEqual_eq, h]
  · intro a b alpha hab
    cases h : specBoundsMatch a b
    · simp [WrappedFloat.minInterpolate, WrappedFloat.assertBoundsEqual_eq, h]
    · simp [WrappedFloat.minInterpolate, WrappedFloat.minDifference,
        WrappedFloat.assertBoundsEqual_eq, h, WrappedFloat.addFloat_eq a _ hab]
  · intro v mn mx status
    cases h1 : specBoundsMatch mn mx
    · simp [WrappedFloat.limitValue, WrappedFloat.assertBoundsEqual_eq, h1]
    · cases h2 : specBoundsMatch v mn
      · simp [WrappedFloat.limitValue, WrappedFloat.assertBoundsEqual_eq, h1, h2]
      · by_cases he : mn.wrapped = mx.wrapped
        · simp [WrappedFloat.limitValue, WrappedFloat.assertBoundsEqual_eq, h1, h2, he,
            WrappedFloat.getWrappedValue]
        · cases hw : WrappedFloat.withinRange v mn mx
          · cases h3 : specBoundsMatch v mx
            · simp [WrappedFloat.limitValue, WrappedFloat.minDifference,
                WrappedFloat.assertBoundsEqual_eq, h1, h2, h3, he, hw,
                WrappedFloat.getWrappedValue]
            · simp only [WrappedFloat.limitValue, WrappedFloat.minDifference,
                WrappedFloat.assertBoundsEqual_eq, h1, h2, h3, he, hw,
                WrappedFloat.getWrappedValue, if_true, if_false, Option.bind_eq_bind,
                Option.some_bind, Option.pure_def, Bool.not_false]
              split_ifs <;> simp
          · simp [WrappedFloat.limitValue, WrappedFloat.assertBoundsEqual_eq, h1, h2, he, hw,
              WrappedFloat.getWrappedValue]
  · intro lA uA lB uB hA hB hC
    cases h1 : specBoundsMatch lA uA
    · simp [WrappedFloat.rangeOverlap, WrappedFloat.assertBoundsEqual_eq, h1]
    · cases h2 : specBoundsMatch uA lB
      · simp [WrappedFloat.rangeOverlap, WrappedFloat.assertBoundsEqual_eq, h1, h2]
      · cases h3 : specBoundsMatch lB uB
        · simp [WrappedFloat.rangeOverlap, WrappedFloat.assertBoundsEqual_eq, h1, h2, h3]
        · simp only [WrappedFloat.rangeOverlap, WrappedFloat.assertBoundsEqual_eq, h1, h2, h3,
            WrappedFloat.subFloat_eq _ _ hA, WrappedFloat.subFloat_eq _ _ hB,
            WrappedFloat.subFloat_eq _ _ hC, if_true, Option.bind_eq_bind, Option.some_bind,
            Option.pure_def]
          split_ifs <;> simp

/-- Instance of C24 (amended): interpolating between a value bounded by `[0, 10)` and one
bounded by `[0, 20)` aborts. -/
theorem assertion_failure_iff_witness :
    WrappedFloat.minInterpolate ⟨0, 0, 0, 10⟩ ⟨5, 0, 0, 20⟩ (1 / 2) = none :=
  (assertion_failure_iff.2.1 ⟨0, 0, 0, 10⟩ ⟨5, 0, 0, 20⟩ (1 / 2) (by norm_num)).mpr (by decide!)

/-- C25. `withinRange` makes no bounds assertion: with `x` bounded by `[0, 10)`, `lo` by
`[0, 100)` and `hi` by `[-50, 50)` it returns `true` (wrapped values `5`, `3`, `7`)
instead of failing. -/
theorem withinRange_returns_on_mismatched_bounds :
    (do let x ← WrappedFloat.ctor 5 0 10
        let lo ← WrappedFloat.ctor 3 0 100
        let hi ← WrappedFloat.ctor 7 (-50) 50
        pure (specBoundsMatch x lo, specBoundsMatch x hi, specBoundsMatch lo hi,
          WrappedFloat.withinRange x lo hi)) =
      some (false, false, false, true) := by
  decide!

/-- C28. `WrappedFloat(-10, 0, 10) + 0 == WrappedFloat(-10, 0, 10)` is `false`: the
constructed value has wrapped value `10` and the sum `0`. Also for a value in range:
`WrappedFloat(-20, -20, -10) + 0` has wrapped value `-10`, not `-20`. -/
theorem add_zero_not_equal :
    (do let a ← WrappedFloat.ctor (-10) 0 10
        let b ← WrappedFloat.addFloat a 0
        let e ← WrappedFloat.eq b a
        pure (a.wrapped, b.wrapped, e)) = some (10, 0, false) ∧
    (do let a ← WrappedFloat.ctor (-20) (-20) (-10)
        let b ← WrappedFloat.addFloat a 0
        let e ← WrappedFloat.eq b a
        pure (a.wrapped, b.wrapped, e)) = some (-20, -10, false) := by
  decide!

/-- C29. With wrap bounds `[-20, -10)`, `a` at `-20` and `b` at `-15` (both in range):
`a.minInterpolate(b, 0)` has wrapped value `-10`, the upper bound, not `a`'s wrapped value
`-20`; `a.minInterpolate(b, 1)` does have `b`'s wrapped value `-15`. -/
theorem minInterpolate_zero_not_self :
    (do let a ← WrappedFloat.ctor (-20) (-20) (-10)
        let b ← WrappedFloat.ctor (-15) (-20) (-10)
        let r0 ← WrappedFloat.minInterpolate a b 0
        let r1 ← WrappedFloat.minInterpolate a b 1
        pure (a.wrapped, b.wrapped, r0.wrapped, r1.wrapped)) =
      some (-20, -15, -10, -15) := by
  decide!

/-- C30. For `valueToLimit`, `min`, `max` with matching bounds where `min` and `max` have
equal wrapped values, `limitValue` returns `valueToLimit`'s wrapped value unchanged (and
leaves the status as it was), for every `valueToLimit`. -/
theorem limitValue_full_circle (valueToLimit min max : WrappedFloat) (status : ℤ)
    (h1 : specBoundsMatch min max = true) (h2 : specBoundsMatch valueToLimit min = true)
    (he : min.wrapped = max.wrapped) :
    WrappedFloat.limitValue valueToLimit min max status =
      some (valueToLimit.wrapped, status) := by
  simp [WrappedFloat.limitValue, WrappedFloat.assertBoundsEqual_eq, h1, h2, he,
    WrappedFloat.getWrappedValue]

/-- Instance of C30 on bounds `[0, 10)`: `min` and `max` both at `4`, the value at `9`. -/
theorem limitValue_full_circle_witness :
    WrappedFloat.limitValue ⟨9, 0, 0, 10⟩ ⟨4, 0, 0, 10⟩ ⟨4, 1, 0, 10⟩ 7 = some (9, 7) :=
  limitValue_full_circle ⟨9, 0, 0, 10⟩ ⟨4, 0, 0, 10⟩ ⟨4, 1, 0, 10⟩ 7
    (by decide!) (by decide!) rfl


/-! ## Claims on documented examples, additivity and the status output (C31, C34, C35) -/

/-- C31, as stated, fails on the second documented example: for a value wrapped from
`-10` to `10`, `valueToLimit` `9` with `min` `1` and `max` `3` is limited to `3` (status
`2`), not to `1`; on that circle of length `20` the distance from `9` to `3` is `6` and
to `1` is `8`. -/
theorem limitValue_documented_example_two :
    (do let v ← WrappedFloat.ctor 9 (-10) 10
        let mn ← WrappedFloat.ctor 1 (-10) 10
        let mx ← WrappedFloat.ctor 3 (-10) 10
        WrappedFloat.limitValue v mn mx 0) = some (3, 2) ∧
    (do let v ← WrappedFloat.ctor 9 (-10) 10
        let mn ← WrappedFloat.ctor 1 (-10) 10
        let mx ← WrappedFloat.ctor 3 (-10) 10
        let dmin ← WrappedFloat.minDifference v mn
        let dmax ← WrappedFloat.minDifference v mx
        pure (dmin, dmax)) = some (-8, -6) := by
  refine ⟨by decide!, by decide!⟩

/-- C31, amended. For a value wrapped from `-10` to `10`: `valueToLimit` `5` with `min`
`1`, `max` `4` returns `4`; `valueToLimit` `9` with `min` `1`, `max` `3` returns `3`, the
nearer bound; `valueToLimit` `9` with `min` `2`, `max` `1` returns `9`. The same holds
for the overload taking `min` and `max` as floats. For a value wrapped from `0` to `10`
the second example does return `1`. -/
theorem limitValue_documented_examples :
    (do let v ← WrappedFloat.ctor 5 (-10) 10
        let mn ← WrappedFloat.ctor 1 (-10) 10
        let mx ← WrappedFloat.ctor 4 (-10) 10
        WrappedFloat.limitValue v mn mx 0) = some (4, 2) ∧
    (do let v ← WrappedFloat.ctor 9 (-10) 10
        let mn ← WrappedFloat.ctor 1 (-10) 10
        let mx ← WrappedFloat.ctor 3 (-10) 10
        WrappedFloat.limitValue v mn mx 0) = some (3, 2) ∧
    (do let v ← WrappedFloat.ctor 9 (-10) 10
        let mn ← WrappedFloat.ctor 2 (-10) 10
        let mx ← WrappedFloat.ctor 1 (-10) 10
        WrappedFloat.limitValue v mn mx 0) = some (9, 0) ∧
    (do let v ← WrappedFloat.ctor 5 (-10) 10
        WrappedFloat.limitValueFloat v 1 4 0) = some (4, 2) ∧
    (do let v ← WrappedFloat.ctor 9 (-10) 10
        WrappedFloat.limitValueFloat v 1 3 0) = some (3, 2) ∧
    (do let v ← WrappedFloat.ctor 9 (-10) 10
        WrappedFloat.limitValueFloat v 2 1 0) = some (9, 0) ∧
    (do let v ← WrappedFloat.ctor 9 0 10
        let mn ← WrappedFloat.ctor 1 0 10
        let mx ← WrappedFloat.ctor 3 0 10
        WrappedFloat.limitValue v mn mx 0) = some (1, 1) := by
  refine ⟨by decide!, by decide!, by decide!, by decide!, by decide!, by decide!, by decide!⟩

/-- C34. With wrap bounds `[10, 20)` and `a = b` at `10` (in range, unwrapped value
`10`), `(a - b).getUnwrappedValue()` is `10`, not `10 - 10 = 0`; with wrap bounds
`[-20, -10)` and `a = b` at `-15`, `(a + b).getUnwrappedValue()` is `-20`, not
`-15 + -15 = -30`. -/
theorem unwrapped_not_additive :
    (do let a ← WrappedFloat.ctor 10 10 20
        let b ← WrappedFloat.ctor 10 10 20
        let x ← WrappedFloat.sub a b
        pure (a.getUnwrappedValue, b.getUnwrappedValue, x.wrapped, x.getUnwrappedValue)) =
      some (10, 10, 20, 10) ∧
    (do let a ← WrappedFloat.ctor (-15) (-20) (-10)
        let b ← WrappedFloat.ctor (-15) (-20) (-10)
        let x ← WrappedFloat.add a b
        pure (a.getUnwrappedValue, b.getUnwrappedValue, x.wrapped, x.getUnwrappedValue)) =
      some (-15, -15, -10, -20) := by
  refine ⟨by decide!, by decide!⟩

/-- C35. For operands with matching bounds, `limitValue` returns, and: when `min` and
`max` have equal wrapped values the status keeps the value it had before the call; in
every other case it is set to one of `0`, `1`, `2`. -/
theorem limitValue_status (valueToLimit min max : WrappedFloat) (status : ℤ)
    (h1 : specBoundsMatch min max = true) (h2 : specBoundsMatch valueToLimit min = true)
    (h3 : specBoundsMatch valueToLimit max = true) :
    ∃ value newStatus,
      WrappedFloat.limitValue valueToLimit min max status = some (value, newStatus) ∧
      (min.wrapped = max.wrapped → newStatus = status) ∧
      (min.wrapped ≠ max.wrapped → newStatus = 0 ∨ newStatus = 1 ∨ newStatus = 2) := by
  by_cases he : min.wrapped = max.wrapped
  · refine ⟨valueToLimit.wrapped, status, ?_, fun _ => rfl, fun h => absurd he h⟩
    simp [WrappedFloat.limitValue, WrappedFloat.assertBoundsEqual_eq, h1, h2, he,
      WrappedFloat.getWrappedValue]
  · cases hw : WrappedFloat.withinRange valueToLimit min max
    · obtain ⟨dmin, hdmin⟩ : ∃ d, WrappedFloat.minDifference valueToLimit min = some d := by
        simp [WrappedFloat.minDifference, WrappedFloat.assertBoundsEqual_eq, h2]
      obtain ⟨dmax, hdmax⟩ : ∃ d, WrappedFloat.minDifference valueToLimit max = some d := by
        simp [WrappedFloat.minDifference, WrappedFloat.assertBoundsEqual_eq, h3]
      have hl : WrappedFloat.limitValue valueToLimit min max status =
          some (if |dmin| < |dmax| then (min.wrapped, 1) else (max.wrapped, 2)) := by
        simp only [WrappedFloat.limitValue, WrappedFloat.assertBoundsEqual_eq, h1, h2, hdmin,
          hdmax, hw, WrappedFloat.getWrappedValue, he, Option.bind_eq_bind, Option.some_bind,
          Option.pure_def, if_false, Bool.not_false, if_true]
        split_ifs <;> rfl
      by_cases hc : |dmin| < |dmax|
      · rw [if_pos hc] at hl
        exact ⟨_, 1, hl, fun h => absurd h he, fun _ => Or.inr (Or.inl rfl)⟩
      · rw [if_neg hc] at hl
        exact ⟨_, 2, hl, fun h => absurd h he, fun _ => Or.inr (Or.inr rfl)⟩
    · refine ⟨valueToLimit.wrapped, 0, ?_, fun h => absurd h he, fun _ => Or.inl rfl⟩
      simp [WrappedFloat.limitValue, WrappedFloat.assertBoundsEqual_eq, h1, h2, he, hw,
        WrappedFloat.getWrappedValue]

/-- Instance of C35 on bounds `[0, 10)`: with `min` and `max` both at `4` the status `7`
given to the call comes back. -/
theorem limitValue_status_witness :
    ∃ value newStatus,
      WrappedFloat.limitValue ⟨9, 0, 0, 10⟩ ⟨4, 0, 0, 10⟩ ⟨4, 0, 0, 10⟩ 7 =
        some (value, newStatus) ∧
      ((4 : ℚ) = 4 → newStatus = 7) ∧
      ((4 : ℚ) ≠ 4 → newStatus = 0 ∨ newStatus = 1 ∨ newStatus = 2) :=
  limitValue_status ⟨9, 0, 0, 10⟩ ⟨4, 0, 0, 10⟩ ⟨4, 0, 0, 10⟩ 7
    (by decide!) (by decide!) (by decide!)


namespace transforms

/-! ## Auxiliary facts on matrices -/

/-- A `3 x 3` matrix built from its nine `data` entries, row by row. -/
lemma CMSISMat.ofData_three_three {α : Type} [Zero α] (a b c d e f g h i : α) :
    (CMSISMat.ofData [a, b, c, d, e, f, g, h, i] : CMSISMat α 3 3) =
      !![a, b, c; d, e, f; g, h, i] := by
  ext i j
  fin_cases i <;> fin_cases j <;> simp [CMSISMat.ofData]

/-- A `3 x 1` matrix built from its three `data` entries. -/
lemma CMSISMat.ofData_three_one {α : Type} [Zero α] (a b c : α) :
    (CMSISMat.ofData [a, b, c] : CMSISMat α 3 1) = !![a; b; c] := by
  ext i j
  fin_cases i <;> fin_cases j <;> simp [CMSISMat.ofData]

/-- The Euler matrix of the code factors into the three elementary rotations. -/
lemma Orientation.fromEulerAngles_eq_mul {α : Type} [CommRing α] (m : LibM α)
    (roll pitch yaw : α) :
    Orientation.fromEulerAngles m roll pitch yaw =
      specRz (m.cosf yaw) (m.sinf yaw) * specRy (m.cosf pitch) (m.sinf pitch) *
        specRx (m.cosf roll) (m.sinf roll) := by
  rw [Orientation.fromEulerAngles, CMSISMat.ofData_three_three]
  ext i j
  fin_cases i <;> fin_cases j <;>
    simp [specRx, specRy, specRz, Matrix.mul_apply, Fin.sum_univ_three, Matrix.vecHead,
      Matrix.vecTail] <;> ring

lemma specRx_mul_transpose {α : Type} [CommRing α] (c s : α) (h : c ^ 2 + s ^ 2 = 1) :
    specRx c s * (specRx c s).transpose = 1 := by
  ext i j
  fin_cases i <;> fin_cases j <;>
    simp [specRx, Matrix.mul_apply, Fin.sum_univ_three, Matrix.vecHead, Matrix.vecTail] <;>
    first | (rw [← h]; ring) | ring

lemma specRy_mul_transpose {α : Type} [CommRing α] (c s : α) (h : c ^ 2 + s ^ 2 = 1) :
    specRy c s * (specRy c s).transpose = 1 := by
  ext i j
  fin_cases i <;> fin_cases j <;>
    simp [specRy, Matrix.mul_apply, Fin.sum_univ_three, Matrix.vecHead, Matrix.vecTail] <;>
    first | (rw [← h]; ring) | ring

lemma specRz_mul_transpose {α : Type} [CommRing α] (c s : α) (h : c ^ 2 + s ^ 2 = 1) :
    specRz c s * (specRz c s).transpose = 1 := by
  ext i j
  fin_cases i <;> fin_cases j <;>
    simp [specRz, Matrix.mul_apply, Fin.sum_univ_three, Matrix.vecHead, Matrix.vecTail] <;>
    first | (rw [← h]; ring) | ring

lemma specRx_det {α : Type} [CommRing α] (c s : α) (h : c ^ 2 + s ^ 2 = 1) :
    (specRx c s).det = 1 := by
  rw [specRx, Matrix.det_fin_three]
  simp
  rw [← h]; ring

lemma specRy_det {α : Type} [CommRing α] (c s : α) (h : c ^ 2 + s ^ 2 = 1) :
    (specRy c s).det = 1 := by
  rw [specRy, Matrix.det_fin_three]
  simp
  rw [← h]; ring

lemma specRz_det {α : Type} [CommRing α] (c s : α) (h : c ^ 2 + s ^ 2 = 1) :
    (specRz c s).det = 1 := by
  rw [specRz, Matrix.det_fin_three]
  simp
  rw [← h]; ring

/-- A product of two matrices with `M * Mᵀ = 1` and determinant `1` is such a matrix. -/
lemma rotation_mul {α : Type} [CommRing α] (A B : Matrix (Fin 3) (Fin 3) α)
    (hA : A * A.transpose = 1) (hAd : A.det = 1)
    (hB : B * B.transpose = 1) (hBd : B.det = 1) :
    (A * B) * (A * B).transpose = 1 ∧ (A * B).det = 1 := by
  constructor
  · rw [Matrix.transpose_mul, Matrix.mul_assoc, ← Matrix.mul_assoc B, hB, Matrix.one_mul, hA]
  · rw [Matrix.det_mul, hAd, hBd, one_mul]

/-- The Euler matrix over the reals is a rotation matrix. -/
lemma Orientation.fromEulerAngles_rotation (roll pitch yaw : ℝ) :
    Orientation.fromEulerAngles realLibM roll pitch yaw *
        (Orientation.fromEulerAngles realLibM roll pitch yaw).transpose = 1 ∧
      (Orientation.fromEulerAngles realLibM roll pitch yaw).det = 1 := by
  rw [Orientation.fromEulerAngles_eq_mul]
  have hx := Real.cos_sq_add_sin_sq roll
  have hy := Real.cos_sq_add_sin_sq pitch
  have hz := Real.cos_sq_add_sin_sq yaw
  have h1 := rotation_mul _ _ (specRz_mul_transpose _ _ hz) (specRz_det _ _ hz)
    (specRy_mul_transpose _ _ hy) (specRy_det _ _ hy)
  exact rotation_mul _ _ h1.1 h1.2 (specRx_mul_transpose _ _ hx) (specRx_det _ _ hx)


/-- On a matrix of Euler angles with `cos pitch > 0`, `atan2` recovers an angle of
`(-π, π]` from the pair `(cos pitch * sin θ, cos pitch * cos θ)`. -/
lemma realLibM_atan2_scaled (c θ : ℝ) (hc : 0 < c) (h1 : -Real.pi < θ) (h2 : θ ≤ Real.pi) :
    realLibM.atan2 (c * Real.sin θ) (c * Real.cos θ) = θ := by
  have e : (⟨c * Real.cos θ, c * Real.sin θ⟩ : ℂ) =
      (c : ℂ) * (Complex.cos θ + Complex.sin θ * Complex.I) := by
    apply Complex.ext
    · simp [← Complex.ofReal_cos, ← Complex.ofReal_sin]
    · simp [← Complex.ofReal_cos, ← Complex.ofReal_sin]
  show Complex.arg ⟨c * Real.cos θ, c * Real.sin θ⟩ = θ
  rw [e]
  exact Complex.arg_mul_cos_add_sin_mul_I hc ⟨h1, h2⟩

/-- With a negative factor in place of `cos pitch`, `atan2` returns the angle turned by
half a circle. -/
lemma realLibM_atan2_scaled_neg (c θ : ℝ) (hc : c < 0) (h1 : 0 < θ) (h2 : θ ≤ Real.pi) :
    realLibM.atan2 (c * realLibM.sinf θ) (c * realLibM.cosf θ) = θ - Real.pi := by
  have h := realLibM_atan2_scaled (-c) (θ - Real.pi) (by linarith) (by linarith)
    (by linarith [Real.pi_pos])
  rw [Real.sin_sub_pi, Real.cos_sub_pi] at h
  have e1 : -c * -Real.sin θ = c * Real.sin θ := by ring
  have e2 : -c * -Real.cos θ = c * Real.cos θ := by ring
  rw [e1, e2] at h
  exact h

/-- The `float` nearest to `π / 2` lies above `π / 2`: its cosine is negative. -/
lemma realLibM_cos_float_half_pi_neg : realLibM.cosf (13176795 / 8388608) < 0 := by
  show Real.cos (13176795 / 8388608) < 0
  apply Real.cos_neg_of_pi_div_two_lt_of_lt
  · have := Real.pi_lt_d20
    linarith
  · have := Real.pi_gt_three
    linarith

/-! ## Claims on `Orientation` (C11 - C14) -/

/-- C11. For all roll, pitch, yaw, `Orientation::fromEulerAngles(roll, pitch, yaw)` is the
matrix product `Rz(yaw) * Ry(pitch) * Rx(roll)` of the elementary rotations about the z, y
and x axes, entry for entry (whatever the scalars and the values of `cosf`, `sinf`). -/
theorem fromEulerAngles_eq_Rz_Ry_Rx {α : Type} [CommRing α] (m : LibM α)
    (roll pitch yaw : α) :
    Orientation.fromEulerAngles m roll pitch yaw =
      specRz (m.cosf yaw) (m.sinf yaw) * specRy (m.cosf pitch) (m.sinf pitch) *
        specRx (m.cosf roll) (m.sinf roll) :=
  Orientation.fromEulerAngles_eq_mul m roll pitch yaw

/-- C12. Over the reals, for roll `r` and yaw `y` in `(-π, π]` and pitch `p` with
`|p| < π/2`, the Orientation built from the matrix `Orientation::fromEulerAngles(r, p, y)`
has `roll() = r`, `pitch() = p` and `yaw() = y`. -/
theorem euler_angles_round_trip (r p y : ℝ)
    (hr1 : -Real.pi < r) (hr2 : r ≤ Real.pi)
    (hy1 : -Real.pi < y) (hy2 : y ≤ Real.pi)
    (hp : |p| < Real.pi / 2) :
    Orientation.roll realLibM
        (Orientation.ofMatrix (Orientation.fromEulerAngles realLibM r p y)) = r ∧
    Orientation.pitch realLibM
        (Orientation.ofMatrix (Orientation.fromEulerAngles realLibM r p y)) = p ∧
    Orientation.yaw realLibM
        (Orientation.ofMatrix (Orientation.fromEulerAngles realLibM r p y)) = y := by
  have hp' := abs_lt.mp hp
  have hc : 0 < Real.cos p := Real.cos_pos_of_mem_Ioo ⟨hp'.1, hp'.2⟩
  simp only [Orientation.roll, Orientation.pitch, Orientation.yaw, Orientation.ofMatrix,
    Orientation.fromEulerAngles, CMSISMat.ofData_three_three]
  refine ⟨?_, ?_, ?_⟩
  · have := realLibM_atan2_scaled (Real.cos p) r hc hr1 hr2
    simpa [CMSISMat.data, realLibM] using this
  · have : Real.arcsin (Real.sin p) = p := Real.arcsin_sin hp'.1.le hp'.2.le
    simpa [CMSISMat.data, realLibM] using this
  · have := realLibM_atan2_scaled (Real.cos p) y hc hy1 hy2
    simpa [CMSISMat.data, realLibM, mul_comm] using this

/-- Instance of C12: roll `π`, pitch `0`, yaw `π / 2`. -/
theorem euler_angles_round_trip_witness :
    Orientation.roll realLibM
        (Orientation.ofMatrix
          (Orientation.fromEulerAngles realLibM Real.pi 0 (Real.pi / 2))) = Real.pi ∧
    Orientation.pitch realLibM
        (Orientation.ofMatrix
          (Orientation.fromEulerAngles realLibM Real.pi 0 (Real.pi / 2))) = 0 ∧
    Orientation.yaw realLibM
        (Orientation.ofMatrix
          (Orientation.fromEulerAngles realLibM Real.pi 0 (Real.pi / 2))) = Real.pi / 2 :=
  euler_angles_round_trip Real.pi 0 (Real.pi / 2)
    (by linarith [Real.pi_pos]) le_rfl (by linarith [Real.pi_pos]) (by linarith [Real.pi_pos])
    (by rw [abs_zero]; linarith [Real.pi_pos])

/-- C13. `roll()` has no branch for gimbal lock: whatever the math library and the
angles, it is `atan2(cosf(pitch) * sinf(roll), cosf(pitch) * cosf(roll))`. At the `float`
nearest to `π / 2`, which is `pitch = 13176795 / 2 ^ 23` and lies above `π / 2`, the
cosine is negative (about `-4.37e-8`), so that for roll `1 / 4` and yaw `0` the code
returns `roll() = 1 / 4 - π`, not `0`; likewise at `-pitch`. -/
theorem roll_at_float_half_pi :
    (∀ (α : Type) [Ring α] (m : LibM α) (r p y : α),
      Orientation.roll m (Orientation.ofMatrix (Orientation.fromEulerAngles m r p y)) =
        m.atan2 (m.cosf p * m.sinf r) (m.cosf p * m.cosf r)) ∧
    Orientation.roll realLibM
        (Orientation.ofMatrix
          (Orientation.fromEulerAngles realLibM (1 / 4) (13176795 / 8388608) 0)) =
      1 / 4 - Real.pi ∧
    Orientation.roll realLibM
        (Orientation.ofMatrix
          (Orientation.fromEulerAngles realLibM (1 / 4) (-(13176795 / 8388608)) 0)) =
      1 / 4 - Real.pi ∧
    (1 / 4 - Real.pi ≠ 0) := by
  have hroll : ∀ (α : Type) [Ring α] (m : LibM α) (r p y : α),
      Orientation.roll m (Orientation.ofMatrix (Orientation.fromEulerAngles m r p y)) =
        m.atan2 (m.cosf p * m.sinf r) (m.cosf p * m.cosf r) := by
    intro α _ m r p y
    simp [Orientation.roll, Orientation.ofMatrix, Orientation.fromEulerAngles,
      CMSISMat.ofData_three_three, CMSISMat.data]
  have hc := realLibM_cos_float_half_pi_neg
  have h4 : (1 / 4 : ℝ) ≤ Real.pi := by linarith [Real.pi_gt_three]
  refine ⟨hroll, ?_, ?_, ?_⟩
  · rw [hroll]
    exact realLibM_atan2_scaled_neg _ (1 / 4) hc (by norm_num) h4
  · rw [hroll]
    have e : realLibM.cosf (-(13176795 / 8388608)) = realLibM.cosf (13176795 / 8388608) :=
      Real.cos_neg _
    rw [e]
    exact realLibM_atan2_scaled_neg _ (1 / 4) hc (by norm_num) h4
  · linarith [Real.pi_gt_three]

/-- C14. Over the reals, for all angles `M = Orientation::fromEulerAngles(r, p, y)` has
`M * Mᵀ = I` and `det M = 1`; and for two Orientations with orthonormal matrices `A`, `B`
(`A * Aᵀ = I`, `B * Bᵀ = I`), `A.compose(B)` has matrix `A * B`, which is orthonormal
again, and has determinant `1` when `A` and `B` have. -/
theorem orientation_orthonormal :
    (∀ r p y : ℝ,
      Orientation.fromEulerAngles realLibM r p y *
          (Orientation.fromEulerAngles realLibM r p y).transpose = 1 ∧
      (Orientation.fromEulerAngles realLibM r p y).det = 1) ∧
    (∀ A B : Orientation ℝ,
      A.matrix_ * A.matrix_.transpose = 1 → B.matrix_ * B.matrix_.transpose = 1 →
      (Orientation.compose A B).matrix_ = A.matrix_ * B.matrix_ ∧
      (Orientation.compose A B).matrix_ * (Orientation.compose A B).matrix_.transpose = 1 ∧
      (A.matrix_.det = 1 → B.matrix_.det = 1 → (Orientation.compose A B).matrix_.det = 1)) := by
  refine ⟨fun r p y => Orientation.fromEulerAngles_rotation r p y, ?_⟩
  intro A B hA hB
  refine ⟨rfl, ?_, ?_⟩
  · show (A.matrix_ * B.matrix_) * (A.matrix_ * B.matrix_).transpose = 1
    rw [Matrix.transpose_mul, Matrix.mul_assoc, ← Matrix.mul_assoc B.matrix_, hB,
      Matrix.one_mul, hA]
  · intro hAd hBd
    show (A.matrix_ * B.matrix_).det = 1
    rw [Matrix.det_mul, hAd, hBd, one_mul]

/-- Instance of C14: the quarter turn about z (`Orientation(0, 0, π/2)`) composed with
the half turn about x (`Orientation(π, 0, 0)`). -/
theorem orientation_orthonormal_witness :
    (Orientation.compose (Orientation.ctor realLibM 0 0 (Real.pi / 2))
        (Orientation.ctor realLibM Real.pi 0 0)).matrix_ =
      (Orientation.ctor realLibM 0 0 (Real.pi / 2)).matrix_ *
        (Orientation.ctor realLibM Real.pi 0 0).matrix_ ∧
    (Orientation.compose (Orientation.ctor realLibM 0 0 (Real.pi / 2))
        (Orientation.ctor realLibM Real.pi 0 0)).matrix_ *
      (Orientation.compose (Orientation.ctor realLibM 0 0 (Real.pi / 2))
        (Orientation.ctor realLibM Real.pi 0 0)).matrix_.transpose = 1 ∧
    (Orientation.compose (Orientation.ctor realLibM 0 0 (Real.pi / 2))
        (Orientation.ctor realLibM Real.pi 0 0)).matrix_.det = 1 :=
  have h := orientation_orthonormal.2 (Orientation.ctor realLibM 0 0 (Real.pi / 2))
    (Orientation.ctor realLibM Real.pi 0 0)
    (Orientation.fromEulerAngles_rotation 0 0 (Real.pi / 2)).1
    (Orientation.fromEulerAngles_rotation Real.pi 0 0).1
  ⟨h.1, h.2.1, h.2.2 (Orientation.fromEulerAngles_rotation 0 0 (Real.pi / 2)).2
    (Orientation.fromEulerAngles_rotation Real.pi 0 0).2⟩

/-! ## Claims on `AngularVelocity` (C15, C16) -/

/-- C15. The getters do not return the constructor's arguments component-wise:
`getRollVelocity()` reads `data[0 * 3 + 2]`, which holds `pitchVel`, and
`getPitchVelocity()` reads `-data[1 * 3 + 2]`, which is `rollVel`; only `getYawVelocity()`
returns its own rate. For `AngularVelocity(1, 2, 3)` the roll velocity read back is `2`
and the pitch velocity `1`. -/
theorem angularVelocity_roll_pitch_swapped :
    (∀ rollVel pitchVel yawVel : ℚ,
      (AngularVelocity.ctor rollVel pitchVel yawVel).getRollVelocity = pitchVel ∧
      (AngularVelocity.ctor rollVel pitchVel yawVel).getPitchVelocity = rollVel ∧
      (AngularVelocity.ctor rollVel pitchVel yawVel).getYawVelocity = yawVel) ∧
    (AngularVelocity.ctor (1 : ℚ) 2 3).getRollVelocity = 2 ∧
    (AngularVelocity.ctor (1 : ℚ) 2 3).getPitchVelocity = 1 ∧
    (AngularVelocity.ctor (1 : ℚ) 2 3).getYawVelocity = 3 := by
  refine ⟨?_, by decide!, by decide!, by decide!⟩
  intro rollVel pitchVel yawVel
  simp [AngularVelocity.getRollVelocity, AngularVelocity.getPitchVelocity,
    AngularVelocity.getYawVelocity, AngularVelocity.ctor, AngularVelocity.skewMatFromAngVel,
    CMSISMat.data, CMSISMat.ofData]

/-- C16. For all `wx`, `wy`, `wz`, `AngularVelocity::skewMatFromAngVel(wx, wy, wz)` is the
matrix `[[0,-wz,wy],[wz,0,-wx],[-wy,wx,0]]`; it is skew-symmetric, `Mᵀ = -M`, and acts as
the cross product, `M * v = (wx, wy, wz) × v` for every 3-vector `v`. -/
theorem skewMatFromAngVel_cross {α : Type} [CommRing α] (wx wy wz : α) :
    AngularVelocity.skewMatFromAngVel wx wy wz = !![0, -wz, wy; wz, 0, -wx; -wy, wx, 0] ∧
    (AngularVelocity.skewMatFromAngVel wx wy wz).transpose =
      -AngularVelocity.skewMatFromAngVel wx wy wz ∧
    ∀ v : Fin 3 → α,
      Matrix.mulVec (AngularVelocity.skewMatFromAngVel wx wy wz) v =
        crossProduct ![wx, wy, wz] v := by
  have e : AngularVelocity.skewMatFromAngVel wx wy wz =
      !![0, -wz, wy; wz, 0, -wx; -wy, wx, 0] := by
    rw [AngularVelocity.skewMatFromAngVel, CMSISMat.ofData_three_three]
  refine ⟨e, ?_, ?_⟩
  · rw [e]
    ext i j
    fin_cases i <;> fin_cases j <;> simp
  · intro v
    rw [e, cross_apply]
    ext i
    fin_cases i <;>
      simp [Matrix.mulVec, Matrix.dotProduct, Fin.sum_univ_three, Matrix.vecHead,
        Matrix.vecTail] <;> ring


/-! ## Auxiliary facts on `Transform` -/

/-- With all derivative fields zero, `checkDynamic` clears the flag. -/
lemma Transform.checkDynamic_of_static {α : Type} [LinearOrderedField α] (T : Transform α)
    (hv : T.transVel = 0) (ha : T.transAcc = 0) (hw : T.angVel = 0) :
    Transform.checkDynamic T = { T with dynamic := false } := by
  have h0 : compareFloatClose (0 : α) 0 (100000⁻¹) = true := by
    simp [compareFloatClose]
  simp [Transform.checkDynamic, Transform.getXVel, Transform.getYVel, Transform.getZVel,
    Transform.getXAcc, Transform.getYAcc, Transform.getZAcc, Transform.getRollVelocity,
    Transform.getPitchVelocity, Transform.getYawVelocity, AngularVelocity.getRollVelocity,
    AngularVelocity.getPitchVelocity, AngularVelocity.getYawVelocity, CMSISMat.data,
    hv, ha, hw, h0]

/-- The fields the dynamic constructor stores: `checkDynamic` touches only the flag. -/
lemma Transform.ctorDynamic_fields {α : Type} [LinearOrderedField α]
    (t : CMSISMat α 3 1) (R : CMSISMat α 3 3) (v a : CMSISMat α 3 1) (w : CMSISMat α 3 3) :
    (Transform.ctorDynamic t R v a w).translation = t ∧
    (Transform.ctorDynamic t R v a w).rotation = R ∧
    (Transform.ctorDynamic t R v a w).tRotation = R.transpose ∧
    (Transform.ctorDynamic t R v a w).transVel = v ∧
    (Transform.ctorDynamic t R v a w).transAcc = a ∧
    (Transform.ctorDynamic t R v a w).angVel = w :=
  ⟨rfl, rfl, rfl, rfl, rfl, rfl⟩

/-- The static constructor: zero derivative fields, cached transpose, flag cleared. -/
lemma Transform.ctor_eq {α : Type} [LinearOrderedField α]
    (t : CMSISMat α 3 1) (R : CMSISMat α 3 3) :
    Transform.ctor t R =
      { dynamic := false, translation := t, transVel := 0, transAcc := 0, rotation := R,
        tRotation := R.transpose, angVel := 0 } := by
  rw [Transform.ctor, Transform.ctorDynamic, Transform.checkDynamic_of_static _ rfl rfl rfl]

/-- The Euler matrix of the zero angles over the reals is the identity matrix. -/
lemma fromEulerAngles_zero : fromEulerAngles realLibM 0 0 0 = 1 := by
  rw [fromEulerAngles, Orientation.fromEulerAngles, CMSISMat.ofData_three_three]
  ext i j
  fin_cases i <;> fin_cases j <;> simp [realLibM, Matrix.vecHead, Matrix.vecTail]

/-- The identity transform over the reals, field by field. -/
lemma Transform.identity_eq :
    Transform.identity realLibM =
      { dynamic := false, translation := 0, transVel := 0, transAcc := 0, rotation := 1,
        tRotation := 1, angVel := 0 } := by
  have e : (CMSISMat.ofData [(0 : ℝ), 0, 0] : CMSISMat ℝ 3 1) = 0 := by
    ext i j
    fin_cases i <;> fin_cases j <;> simp [CMSISMat.ofData]
  rw [Transform.identity, Transform.ctorEuler, Transform.ctor_eq, fromEulerAngles_zero, e,
    Matrix.transpose_one]


/-! ## Claims on `Transform` (C17 - C20) -/

/-- C17. For every Transform `T` with translation `t`, rotation `R` (and the cached
transpose in step with it) and every Position `p`, `T.apply(p) = Rᵀ * (p - t)`; and
over the reals the transform with zero translation and rotation `Orientation(0, 0, π/2)`
maps `Position(1, 0, 0)` to `Position(0, -1, 0)`. -/
theorem apply_position_eq :
    (∀ (T : Transform ℝ) (p : Position ℝ), T.tRotation = T.rotation.transpose →
      (T.apply p).coordinates = T.rotation.transpose * (p.coordinates - T.translation)) ∧
    (Transform.ofPositionOrientation (Position.ctor 0 0 0)
        (Orientation.ctor realLibM 0 0 (Real.pi / 2))).apply (Position.ctor 1 0 0) =
      Position.ctor 0 (-1) 0 := by
  constructor
  · intro T p h
    rw [← h]
    rfl
  · rw [Transform.ofPositionOrientation, Transform.ctor_eq]
    simp only [Transform.apply, Position.ctor, Position.coordinates, Orientation.matrix,
      Orientation.ctor, fromEulerAngles, Orientation.fromEulerAngles,
      CMSISMat.ofData_three_three, CMSISMat.ofData_three_one]
    congr 1
    ext i j
    fin_cases i <;> fin_cases j <;>
      simp [realLibM, Matrix.mul_apply, Fin.sum_univ_three, Matrix.vecHead, Matrix.vecTail]

/-- Instance of C17 on a constructed transform: translation `(1, 2, 3)`, the quarter turn
about z as rotation, applied to `Position(1, 2, 3)`. -/
theorem apply_position_eq_witness :
    ((Transform.ctor (CMSISMat.ofData [1, 2, 3]) !![0, -1, 0; 1, 0, 0; 0, 0, 1] :
        Transform ℝ).apply (Position.ctor 1 2 3)).coordinates =
      (Transform.ctor (CMSISMat.ofData [1, 2, 3]) !![0, -1, 0; 1, 0, 0; 0, 0, 1] :
        Transform ℝ).rotation.transpose *
        ((Position.ctor 1 2 3 : Position ℝ).coordinates -
          (Transform.ctor (CMSISMat.ofData [1, 2, 3]) !![0, -1, 0; 1, 0, 0; 0, 0, 1] :
            Transform ℝ).translation) :=
  apply_position_eq.1 _ _ rfl

/-- C18. Over the reals, for every static Transform `T` (derivative fields zero, flag and
cached transpose in step), `Transform::identity().compose(T) = T` and
`T.compose(Transform::identity()) = T`; and `compose` yields translation
`this.translation + this.rotation * second.translation` and rotation
`this.rotation * second.rotation`. -/
theorem compose_identity :
    (∀ T : Transform ℝ, T.transVel = 0 → T.transAcc = 0 → T.angVel = 0 →
      T.dynamic = false → T.tRotation = T.rotation.transpose →
      (Transform.identity realLibM).compose T = T ∧
      T.compose (Transform.identity realLibM) = T) ∧
    (∀ A B : Transform ℝ,
      (A.compose B).translation = A.translation + A.rotation * B.translation ∧
      (A.compose B).rotation = A.rotation * B.rotation) := by
  refine ⟨?_, fun A B => ⟨rfl, rfl⟩⟩
  intro T hv ha hw hd ht
  obtain ⟨d, t, v, a, R, tR, w⟩ := T
  simp only at hv ha hw hd ht
  subst hv ha hw hd ht
  rw [Transform.identity_eq]
  constructor
  · rw [Transform.compose, Transform.ctorDynamic,
      Transform.checkDynamic_of_static _ (by simp) (by simp) (by simp)]
    simp
  · rw [Transform.compose, Transform.ctorDynamic,
      Transform.checkDynamic_of_static _ (by simp) (by simp) (by simp)]
    simp

/-- Instance of C18: the static transform with translation `(1, 2, 3)` and the quarter
turn about z as rotation. -/
theorem compose_identity_witness :
    (Transform.identity realLibM).compose
        (Transform.ctor (CMSISMat.ofData [1, 2, 3]) !![0, -1, 0; 1, 0, 0; 0, 0, 1]) =
      Transform.ctor (CMSISMat.ofData [1, 2, 3]) !![0, -1, 0; 1, 0, 0; 0, 0, 1] ∧
    (Transform.ctor (CMSISMat.ofData [1, 2, 3]) !![0, -1, 0; 1, 0, 0; 0, 0, 1]).compose
        (Transform.identity realLibM) =
      Transform.ctor (CMSISMat.ofData [1, 2, 3]) !![0, -1, 0; 1, 0, 0; 0, 0, 1] :=
  compose_identity.1 _
    (by rw [Transform.ctor_eq]) (by rw [Transform.ctor_eq]) (by rw [Transform.ctor_eq])
    (by rw [Transform.ctor_eq]) (by rw [Transform.ctor_eq])

/-- C19. For every Transform `T` with translation `t` and orthonormal rotation `R` (the
cached transpose in step with it), whatever the derivative fields given to the inverse,
`T.getInverse()` has translation `-(Rᵀ * t)` and rotation `Rᵀ`, and
`T.getInverse().compose(T)` has zero translation and the identity rotation. -/
theorem getInverse_compose {α : Type} [LinearOrderedField α]
    (inverseDerivatives : Transform α → CMSISMat α 3 1 × CMSISMat α 3 1 × CMSISMat α 3 3)
    (T : Transform α) (ht : T.tRotation = T.rotation.transpose)
    (hR : T.rotation * T.rotation.transpose = 1) :
    (T.getInverse inverseDerivatives).translation = -(T.rotation.transpose * T.translation) ∧
    (T.getInverse inverseDerivatives).rotation = T.rotation.transpose ∧
    ((T.getInverse inverseDerivatives).compose T).translation = 0 ∧
    ((T.getInverse inverseDerivatives).compose T).rotation = 1 := by
  have hR' : T.rotation.transpose * T.rotation = 1 := Matrix.mul_eq_one_comm.mp hR
  have e1 : (T.getInverse inverseDerivatives).translation =
      -(T.rotation.transpose * T.translation) := by
    rw [← ht]; rfl
  have e2 : (T.getInverse inverseDerivatives).rotation = T.rotation.transpose := by
    rw [← ht]; rfl
  refine ⟨e1, e2, ?_, ?_⟩
  · show (T.getInverse inverseDerivatives).translation +
      (T.getInverse inverseDerivatives).rotation * T.translation = 0
    rw [e1, e2, neg_add_cancel]
  · show (T.getInverse inverseDerivatives).rotation * T.rotation = 1
    rw [e2, hR']

/-- Instance of C19 over the rationals: the static transform with translation `(1, 2, 3)`
and the quarter turn about z as rotation; its inverse has translation `(-2, 1, -3)`. -/
theorem getInverse_compose_witness :
    ((Transform.ctor (CMSISMat.ofData [1, 2, 3]) !![0, -1, 0; 1, 0, 0; 0, 0, 1] :
        Transform ℚ).getInverse (fun _ => (0, 0, 0))).translation = !![-2; 1; -3] ∧
    (((Transform.ctor (CMSISMat.ofData [1, 2, 3]) !![0, -1, 0; 1, 0, 0; 0, 0, 1] :
        Transform ℚ).getInverse (fun _ => (0, 0, 0))).compose
      (Transform.ctor (CMSISMat.ofData [1, 2, 3]) !![0, -1, 0; 1, 0, 0; 0, 0, 1])).translation
      = 0 ∧
    (((Transform.ctor (CMSISMat.ofData [1, 2, 3]) !![0, -1, 0; 1, 0, 0; 0, 0, 1] :
        Transform ℚ).getInverse (fun _ => (0, 0, 0))).compose
      (Transform.ctor (CMSISMat.ofData [1, 2, 3]) !![0, -1, 0; 1, 0, 0; 0, 0, 1])).rotation
      = 1 :=
  have h := getInverse_compose (fun _ => (0, 0, 0))
    (Transform.ctor (CMSISMat.ofData [1, 2, 3]) !![0, -1, 0; 1, 0, 0; 0, 0, 1] : Transform ℚ)
    rfl (by decide!)
  ⟨by decide!, h.2.2.1, h.2.2.2⟩

/-- C20. For every Transform `T` and every `dt`, however the rotation is advanced,
`T.projectForward(dt)` has translation `t + v*dt + (1/2)*a*dt^2` on each axis and the
velocity, acceleration and angular velocity of `T`; and the transform with translation
`(0,0,0)`, identity rotation, velocity `(1,0,0)` and no acceleration is projected by
`2` to translation `(2,0,0)`. -/
theorem projectForward_translation {α : Type} [LinearOrderedField α]
    (integrateRotation : CMSISMat α 3 3 → CMSISMat α 3 3 → α → CMSISMat α 3 3)
    (T : Transform α) (dt : α) :
    ((T.projectForward integrateRotation dt).getX =
        T.getX + T.getXVel * dt + (1 / 2) * T.getXAcc * dt ^ 2 ∧
     (T.projectForward integrateRotation dt).getY =
        T.getY + T.getYVel * dt + (1 / 2) * T.getYAcc * dt ^ 2 ∧
     (T.projectForward integrateRotation dt).getZ =
        T.getZ + T.getZVel * dt + (1 / 2) * T.getZAcc * dt ^ 2) ∧
    ((T.projectForward integrateRotation dt).transVel = T.transVel ∧
     (T.projectForward integrateRotation dt).transAcc = T.transAcc ∧
     (T.projectForward integrateRotation dt).angVel = T.angVel) ∧
    (((Transform.ctorDynamic (CMSISMat.ofData [0, 0, 0]) 1 (CMSISMat.ofData [1, 0, 0]) 0 0 :
        Transform ℚ).projectForward (fun R _ _ => R) 2).translation = !![2; 0; 0]) := by
  refine ⟨⟨?_, ?_, ?_⟩, ⟨rfl, rfl, rfl⟩, by decide!⟩
  · show CMSISMat.data (T.translation + dt • T.transVel + ((1 / 2 : α) * dt ^ 2) • T.transAcc) 0
      = _
    simp [Transform.getX, Transform.getXVel, Transform.getXAcc, CMSISMat.data]
    ring
  · show CMSISMat.data (T.translation + dt • T.transVel + ((1 / 2 : α) * dt ^ 2) • T.transAcc) 1
      = _
    simp [Transform.getY, Transform.getYVel, Transform.getYAcc, CMSISMat.data]
    ring
  · show CMSISMat.data (T.translation + dt • T.transVel + ((1 / 2 : α) * dt ^ 2) • T.transAcc) 2
      = _
    simp [Transform.getZ, Transform.getZVel, Transform.getZAcc, CMSISMat.data]
    ring

/-! ## Claims on the `Transform` mutators (C21, C22, C23) -/

/-- After `checkDynamic` the flag says what the specification asks of it. -/
lemma Transform.checkDynamic_dynamic {α : Type} [LinearOrderedField α] (T : Transform α) :
    (Transform.checkDynamic T).dynamic = specDynamic T := by
  rw [Bool.eq_iff_iff]
  simp only [Transform.checkDynamic, specDynamic, compareFloatClose, sub_zero, Bool.false_or,
    Bool.or_eq_true, Bool.not_eq_true', Bool.and_eq_false_iff, decide_eq_false_iff_not,
    decide_eq_true_eq, not_le]
  tauto

/-- The getters of the derivative fields do not look at the flag. -/
lemma specDynamic_checkDynamic {α : Type} [LinearOrderedField α] (T : Transform α) :
    specDynamic (Transform.checkDynamic T) = specDynamic T := rfl

/-- C21. The dynamic flag is left stale by the `DynamicPosition` and `DynamicOrientation`
overloads, which do not call `checkDynamic`: from the static transform (flag `false`, as
it should be), `updateTranslation(DynamicPosition)` with velocity `(1, 0, 0)` stores that
velocity and `updateRotation(DynamicOrientation)` with angular velocity
`skewMatFromAngVel(1, 0, 0)` stores that matrix, and `isDynamic()` is still `false`. -/
theorem dynamic_flag_stale :
    (Transform.ctor (0 : CMSISMat ℚ 3 1) 1).isDynamic = false ∧
    specDynamic (Transform.ctor (0 : CMSISMat ℚ 3 1) 1) = false ∧
    ((Transform.ctor (0 : CMSISMat ℚ 3 1) 1).updateTranslationDynamic
        ⟨0, CMSISMat.ofData [1, 0, 0], 0⟩).getXVel = 1 ∧
    ((Transform.ctor (0 : CMSISMat ℚ 3 1) 1).updateTranslationDynamic
        ⟨0, CMSISMat.ofData [1, 0, 0], 0⟩).isDynamic = false ∧
    specDynamic ((Transform.ctor (0 : CMSISMat ℚ 3 1) 1).updateTranslationDynamic
        ⟨0, CMSISMat.ofData [1, 0, 0], 0⟩) = true ∧
    ((Transform.ctor (0 : CMSISMat ℚ 3 1) 1).updateRotationDynamic
        ⟨1, AngularVelocity.skewMatFromAngVel 1 0 0⟩).isDynamic = false ∧
    specDynamic ((Transform.ctor (0 : CMSISMat ℚ 3 1) 1).updateRotationDynamic
        ⟨1, AngularVelocity.skewMatFromAngVel 1 0 0⟩) = true := by
  refine ⟨by decide!, by decide!, by decide!, by decide!, by decide!, by decide!, by decide!⟩

/-- C22. `updateAcceleration(const Vector&)` and `updateAcceleration(Vector&&)` do not
store the acceleration: they assign the argument to the velocity. From the static
transform with velocity `(7, 8, 9)`, `updateAcceleration(Vector(1, 2, 3))` leaves the
acceleration `(0, 0, 0)` and makes the velocity `(1, 2, 3)`; the three-float overload
does store `(1, 2, 3)` as acceleration and keeps the velocity. -/
theorem updateAcceleration_overwrites_velocity :
    (((Transform.ctor (0 : CMSISMat ℚ 3 1) 1).updateVelocityXYZ 7 8 9).updateAcceleration
        (Vector.ctor 1 2 3)).transAcc = 0 ∧
    (((Transform.ctor (0 : CMSISMat ℚ 3 1) 1).updateVelocityXYZ 7 8 9).updateAcceleration
        (Vector.ctor 1 2 3)).transVel = !![1; 2; 3] ∧
    (((Transform.ctor (0 : CMSISMat ℚ 3 1) 1).updateVelocityXYZ 7 8 9).updateAccelerationXYZ
        1 2 3).transAcc = !![1; 2; 3] ∧
    (((Transform.ctor (0 : CMSISMat ℚ 3 1) 1).updateVelocityXYZ 7 8 9).updateAccelerationXYZ
        1 2 3).transVel = !![7; 8; 9] := by
  refine ⟨by decide!, by decide!, by decide!, by decide!⟩

/-- C23. After every overload of `updateRotation` (Orientation, roll/pitch/yaw floats,
DynamicOrientation) `tRotation` is the transpose of the new rotation, and no overload of
`updateTranslation`, `updateVelocity`, `updateAcceleration` or `updateAngularVelocity`
changes `rotation` or `tRotation`. -/
theorem tRotation_in_step {α : Type} [LinearOrderedField α] (m : LibM α) (T : Transform α) :
    (∀ o : Orientation α,
      (T.updateRotation o).rotation = o.matrix ∧
      (T.updateRotation o).tRotation = (T.updateRotation o).rotation.transpose) ∧
    (∀ roll pitch yaw : α,
      (T.updateRotationEuler m roll pitch yaw).rotation =
        (Orientation.ctor m roll pitch yaw).matrix ∧
      (T.updateRotationEuler m roll pitch yaw).tRotation =
        (T.updateRotationEuler m roll pitch yaw).rotation.transpose) ∧
    (∀ o : DynamicOrientation α,
      (T.updateRotationDynamic o).rotation = o.orientation ∧
      (T.updateRotationDynamic o).tRotation = (T.updateRotationDynamic o).rotation.transpose) ∧
    (∀ p : Position α,
      (T.updateTranslation p).rotation = T.rotation ∧
      (T.updateTranslation p).tRotation = T.tRotation ∧
      (T.updateAngularVelocityPosition p).rotation = T.rotation ∧
      (T.updateAngularVelocityPosition p).tRotation = T.tRotation) ∧
    (∀ p : DynamicPosition α,
      (T.updateTranslationDynamic p).rotation = T.rotation ∧
      (T.updateTranslationDynamic p).tRotation = T.tRotation) ∧
    (∀ v : Vector α,
      (T.updateVelocity v).rotation = T.rotation ∧
      (T.updateVelocity v).tRotation = T.tRotation ∧
      (T.updateAcceleration v).rotation = T.rotation ∧
      (T.updateAcceleration v).tRotation = T.tRotation ∧
      (T.updateAngularVelocity v).rotation = T.rotation ∧
      (T.updateAngularVelocity v).tRotation = T.tRotation) ∧
    (∀ x y z : α,
      (T.updateTranslationXYZ x y z).rotation = T.rotation ∧
      (T.updateTranslationXYZ x y z).tRotation = T.tRotation ∧
      (T.updateVelocityXYZ x y z).rotation = T.rotation ∧
      (T.updateVelocityXYZ x y z).tRotation = T.tRotation ∧
      (T.updateAccelerationXYZ x y z).rotation = T.rotation ∧
      (T.updateAccelerationXYZ x y z).tRotation = T.tRotation ∧
      (T.updateAngularVelocityXYZ x y z).rotation = T.rotation ∧
      (T.updateAngularVelocityXYZ x y z).tRotation = T.tRotation) :=
  ⟨fun _ => ⟨rfl, rfl⟩, fun _ _ _ => ⟨rfl, rfl⟩, fun _ => ⟨rfl, rfl⟩,
    fun _ => ⟨rfl, rfl, rfl, rfl⟩, fun _ => ⟨rfl, rfl⟩,
    fun _ => ⟨rfl, rfl, rfl, rfl, rfl, rfl⟩,
    fun _ _ _ => ⟨rfl, rfl, rfl, rfl, rfl, rfl, rfl, rfl⟩⟩


/-! ## Claim on `Position::interpolate` (C32) -/

/-- C32. For all Positions `a`, `b` and every `t`, `Position::interpolate(a, b, t)` is
`a * (1 - t) + b * t` coordinate by coordinate; `interpolate(a, b, 0) = a`,
`interpolate(a, b, 1) = b`, and for every `t` (inside `[0, 1]` or not) the result is the
point `a + t * (b - a)` of the line through `a` and `b`. -/
theorem interpolate_eq {α : Type} [LinearOrderedField α] (a b : Position α) (t : α) :
    ((Position.interpolate a b t).x = a.x * (1 - t) + b.x * t ∧
     (Position.interpolate a b t).y = a.y * (1 - t) + b.y * t ∧
     (Position.interpolate a b t).z = a.z * (1 - t) + b.z * t) ∧
    Position.interpolate a b 0 = a ∧
    Position.interpolate a b 1 = b ∧
    (Position.interpolate a b t).coordinates =
      a.coordinates + t • (b.coordinates - a.coordinates) := by
  refine ⟨⟨?_, ?_, ?_⟩, ?_, ?_, ?_⟩
  · simp [Position.interpolate, Position.add, Position.mul, Position.x, CMSISMat.data]
    ring
  · simp [Position.interpolate, Position.add, Position.mul, Position.y, CMSISMat.data]
    ring
  · simp [Position.interpolate, Position.add, Position.mul, Position.z, CMSISMat.data]
    ring
  · simp [Position.interpolate, Position.add, Position.mul]
  · simp [Position.interpolate, Position.add, Position.mul]
  · simp only [Position.interpolate, Position.add, Position.mul, Position.coordinates]
    rw [sub_smul, one_smul, smul_sub]
    abel


end transforms

end tap.algorithms

namespace tap.algorithms.ballistics

/-! ## Claim on the kinematic projection (C33) -/

/-- C33. For every `SecondOrderKinematicState` with position `s`, velocity `v`,
acceleration `a` and every `dt`, `projectForward(dt)` is, on each axis,
`quadraticKinematicProjection(dt, s, v, a) = s + v*dt + (1/2)*a*dt^2`;
`projectForward(0)` is the position, and with zero acceleration the result is
`s + v*dt`. -/
theorem projectForward_quadratic {α : Type} [Field α] (state : SecondOrderKinematicState α)
    (dt : α) :
    (∀ s v a : α, quadraticKinematicProjection dt s v a = s + v * dt + (1 / 2) * a * dt ^ 2) ∧
    state.projectForward dt =
      ⟨state.position.x + state.velocity.x * dt + (1 / 2) * state.acceleration.x * dt ^ 2,
       state.position.y + state.velocity.y * dt + (1 / 2) * state.acceleration.y * dt ^ 2,
       state.position.z + state.velocity.z * dt + (1 / 2) * state.acceleration.z * dt ^ 2⟩ ∧
    state.projectForward 0 = state.position ∧
    (SecondOrderKinematicState.projectForward
        ⟨state.position, state.velocity, ⟨0, 0, 0⟩⟩ dt =
      ⟨state.position.x + state.velocity.x * dt,
       state.position.y + state.velocity.y * dt,
       state.position.z + state.velocity.z * dt⟩) := by
  refine ⟨fun _ _ _ => rfl, rfl, ?_, ?_⟩
  · simp [SecondOrderKinematicState.projectForward, quadraticKinematicProjection]
  · simp [SecondOrderKinematicState.projectForward, quadraticKinematicProjection]

end tap.algorithms.ballistics

namespace tap.control

/-! ## Claim on `SequentialCommand` (C36) -/

/-- While a sub-command is left to run, `execute` reads `commands` inside the array and
does not step past its end. -/
lemma SequentialCommand.execute_in_bounds (isReady isFinished : ℕ → Bool)
    (self : SequentialCommand) (h : self.currentCommand < self.COMMANDS) :
    (∀ i ∈ (self.execute isReady isFinished).2, i < self.COMMANDS) ∧
    (self.execute isReady isFinished).1.currentCommand ≤ self.COMMANDS ∧
    (self.execute isReady isFinished).1.COMMANDS = self.COMMANDS := by
  obtain ⟨n, c, b⟩ := self
  simp only at h
  cases b <;> cases hr : isReady c <;> cases hf : isFinished c <;>
    simp [SequentialCommand.execute, hr, hf, h] <;> omega

/-- C36. `execute` has no guard for the finished state: with `COMMANDS = 1` and a
sub-command that is ready and finishes at once, the first `execute()` after
`initialize()` reads `commands` at index `0` only and leaves `currentCommand = 1`
(`isFinished()` is true); the next `execute()` reads `commands[1]`, past the end of the
array. With `COMMANDS = 0` the first `execute()` already reads `commands[0]`. -/
theorem execute_reads_past_end :
    (SequentialCommand.execute (fun _ => true) (fun _ => true)
        ( SequentialCommand.initialize ⟨1, 0, false⟩)) = (⟨1, 1, false⟩, [0, 0, 0, 0, 0]) ∧
    SequentialCommand.isFinished ⟨1, 1, false⟩ = true ∧
    (SequentialCommand.execute (fun _ => false) (fun _ => false) ⟨1, 1, false⟩).2 = [1] ∧
    (SequentialCommand.execute (fun _ => true) (fun _ => true) ⟨1, 1, false⟩) =
      (⟨1, 2, false⟩, [1, 1, 1, 1, 1]) ∧
    (SequentialCommand.execute (fun _ => false) (fun _ => false)
        ( SequentialCommand.initialize ⟨0, 0, false⟩)).2 = [0] := by
  decide

end tap.control

namespace tap.communication.serial

/-! ## Claims on the referee serial decoder (C37, C38) -/

/-- C37. `decodeToRadarProgress` accepts only `dataLength == 6` and then reads
`message.data[6]` for the sentry: two accepted messages with the same six bytes
`data[0..5]` and a different byte at index `6` are decoded differently. -/
theorem decodeToRadarProgress_reads_index_six :
    decodeToRadarProgress ⟨0, 0, 0, 0, 0, 0⟩ ⟨6, fun i => if i < 6 then 10 + i else 0⟩ =
      (true, ⟨11, 12, 13, 14, 0, 0⟩) ∧
    decodeToRadarProgress ⟨0, 0, 0, 0, 0, 0⟩ ⟨6, fun i => if i < 6 then 10 + i else 99⟩ =
      (true, ⟨11, 12, 13, 14, 0, 99⟩) ∧
    (∀ i, i < 6 → (fun i => if i < 6 then 10 + i else 0) i =
      (fun i => if i < 6 then 10 + i else 99) i) := by
  refine ⟨by decide, by decide, ?_⟩
  intro i hi
  simp [hi]

/-- C38. For every enumerator `id` and own `robotId` of `RobotId` other than `INVALID`,
`getRobotIdBasedOnCurrentRobotTeam(id)` is on the own robot's team and has the same
value modulo `100` as `id`, and applying the function twice gives what applying it once
gives; if `id` or the own `robotId` is `INVALID` the function returns `id`. -/
theorem getRobotIdBasedOnCurrentRobotTeam_spec :
    (∀ robotId id : RobotId,
      RobotId.isEnumerator robotId = true → RobotId.isEnumerator id = true →
      isBlueTeam (getRobotIdBasedOnCurrentRobotTeam robotId id) = isBlueTeam robotId ∧
      getRobotIdBasedOnCurrentRobotTeam robotId id % 100 = id % 100 ∧
      RobotId.isEnumerator (getRobotIdBasedOnCurrentRobotTeam robotId id) = true ∧
      getRobotIdBasedOnCurrentRobotTeam robotId
          (getRobotIdBasedOnCurrentRobotTeam robotId id) =
        getRobotIdBasedOnCurrentRobotTeam robotId id) ∧
    (∀ robotId id : RobotId, id = RobotId.INVALID ∨ robotId = RobotId.INVALID →
      getRobotIdBasedOnCurrentRobotTeam robotId id = id) := by
  constructor
  · intro robotId id h1 h2
    simp only [RobotId.isEnumerator, Bool.or_eq_true, Bool.and_eq_true, decide_eq_true_eq]
      at h1 h2
    simp only [getRobotIdBasedOnCurrentRobotTeam, isBlueTeam, RobotId.add, RobotId.sub,
      RobotId.INVALID, RobotId.BLUE_HERO, RobotId.RED_HERO, RobotId.isEnumerator]
    rcases h1 with h1 | h1 <;> rcases h2 with h2 | h2 <;>
      (obtain ⟨a1, a2⟩ := h1
       obtain ⟨b1, b2⟩ := h2
       interval_cases robotId <;> interval_cases id <;> decide)
  · intro robotId id h
    simp [getRobotIdBasedOnCurrentRobotTeam, h]

/-- Instance of C38: the own robot is `RED_SOLDIER_1` (3) and the id is `BLUE_SENTINEL`
(107); the result is `RED_SENTINEL` (7). -/
theorem getRobotIdBasedOnCurrentRobotTeam_spec_witness :
    getRobotIdBasedOnCurrentRobotTeam 3 107 = 7 ∧
    isBlueTeam (getRobotIdBasedOnCurrentRobotTeam 3 107) = isBlueTeam 3 ∧
    getRobotIdBasedOnCurrentRobotTeam 3 107 % 100 = 107 % 100 ∧
    RobotId.isEnumerator (getRobotIdBasedOnCurrentRobotTeam 3 107) = true ∧
    getRobotIdBasedOnCurrentRobotTeam 3 (getRobotIdBasedOnCurrentRobotTeam 3 107) =
      getRobotIdBasedOnCurrentRobotTeam 3 107 :=
  ⟨by decide, getRobotIdBasedOnCurrentRobotTeam_spec.1 3 107 (by decide) (by decide)⟩

end tap.communication.serial

namespace details

/-! ## Claim on `rotateBox` (C39) -/

/-- Bit `k` of a value reduced to a `uint8_t`. -/
lemma testBit_mod_256 (x k : ℕ) : (x % 256).testBit k = (decide (k < 8) && x.testBit k) := by
  have := Nat.testBit_mod_two_pow x 8 k
  simpa using this

/-- The term `((b >> i) & 1) << s` has bit `i` of `b` at position `s` and no other bit. -/
lemma testBit_term (b i s k : ℕ) :
    ((((b >>> i) &&& 1) <<< s)).testBit k = (decide (k = s) && b.testBit i) := by
  rw [Nat.testBit_shiftLeft, Nat.testBit_and, Nat.testBit_shiftRight]
  by_cases h : k = s
  · subst h
    simp [Nat.testBit_one_zero]
  · by_cases h2 : s ≤ k
    · have h3 : k - s ≠ 0 := by omega
      have h4 : Nat.testBit 1 (k - s) = false := by
        rw [← Bool.not_eq_true, Nat.testBit_one_eq_true_iff_self_eq_zero]
        exact h3
      simp [h, h4]
    · simp [h, h2]

/-- The byte `rotateBox` leaves at index `i`, with the loop over `j` written out. -/
lemma rotateBox_apply (box : Fin 8 → ℕ) (i : Fin 8) :
    rotateBox box i =
      ((((((((((((((((0 ||| (((box 0 >>> i.val) &&& 1) <<< 7)) % 256 |||
        (((box 1 >>> i.val) &&& 1) <<< 6)) % 256 |||
        (((box 2 >>> i.val) &&& 1) <<< 5)) % 256 |||
        (((box 3 >>> i.val) &&& 1) <<< 4)) % 256 |||
        (((box 4 >>> i.val) &&& 1) <<< 3)) % 256 |||
        (((box 5 >>> i.val) &&& 1) <<< 2)) % 256 |||
        (((box 6 >>> i.val) &&& 1) <<< 1)) % 256 |||
        (((box 7 >>> i.val) &&& 1) <<< 0)) % 256)))))))) := by
  simp [rotateBox, List.range_succ, Fin.ofNat]

/-- Bit `k` of output byte `i`: bit `i` of input byte `7 - k` for `k < 8`, and no bit
above. -/
lemma rotateBox_testBit (box : Fin 8 → ℕ) (i : Fin 8) (k : ℕ) :
    (rotateBox box i).testBit k =
      if h : k < 8 then (box (Fin.rev ⟨k, h⟩)).testBit i.val else false := by
  rw [rotateBox_apply]
  simp only [testBit_mod_256, Nat.testBit_or, testBit_term, Nat.zero_testBit]
  by_cases h : k < 8
  · rw [dif_pos h]
    interval_cases k <;> simp <;> rfl
  · rw [dif_neg h]
    simp [h]

/-- C39. `details::rotateBox` turns the 8x8 bit matrix held in 8 bytes by a quarter: for
all `i`, `j` in `0..7`, bit `7 - j` of output byte `i` is bit `i` of input byte `j`; and
applying `rotateBox` four times to a box of 8 bytes restores the box. -/
theorem rotateBox_quarter_turn (box : Fin 8 → ℕ) :
    (∀ i j : Fin 8, (rotateBox box i).testBit (7 - j.val) = (box j).testBit i.val) ∧
    ((∀ i, box i < 256) → rotateBox (rotateBox (rotateBox (rotateBox box))) = box) := by
  constructor
  · intro i j
    have h : 7 - j.val < 8 := by omega
    have e : Fin.rev ⟨7 - j.val, h⟩ = j := by
      apply Fin.ext
      simp only [Fin.val_rev]
      omega
    rw [rotateBox_testBit, dif_pos h, e]
  · intro hb
    funext i
    apply Nat.eq_of_testBit_eq
    intro k
    by_cases h : k < 8
    · rw [rotateBox_testBit, dif_pos h, rotateBox_testBit, dif_pos i.isLt, rotateBox_testBit,
        dif_pos (Fin.rev (⟨k, h⟩ : Fin 8)).isLt, rotateBox_testBit,
        dif_pos (Fin.rev (⟨i.val, i.isLt⟩ : Fin 8)).isLt]
      have e2 : 8 - (8 - (k + 1) + 1) = k := by omega
      have e3 : ∀ hh : 8 - (i.val + 1) < 8, Fin.rev (⟨8 - (i.val + 1), hh⟩ : Fin 8) = i := by
        intro hh
        apply Fin.ext
        simp only [Fin.val_rev]
        omega
      simp only [Fin.val_rev]
      rw [e2, e3]
    · rw [rotateBox_testBit, dif_neg h]
      symm
      apply Nat.testBit_eq_false_of_lt
      calc box i < 256 := hb i
        _ = 2 ^ 8 := by norm_num
        _ ≤ 2 ^ k := Nat.pow_le_pow_right (by norm_num) (by omega)

/-- Instance of C39: the box `1, 2, 3, 4, 5, 6, 7, 255` comes back after four turns. -/
theorem rotateBox_quarter_turn_witness :
    rotateBox (rotateBox (rotateBox (rotateBox ![1, 2, 3, 4, 5, 6, 7, 255]))) =
      ![1, 2, 3, 4, 5, 6, 7, 255] :=
  (rotateBox_quarter_turn ![1, 2, 3, 4, 5, 6, 7, 255]).2 (by decide)

end details
